import Mathlib

/-!
# Community routes of the Bagpack backend

A shallow embedding of `routes/community.js`: the thirteen handlers of the
community router, as pure functions from a store state (and the request's
parameters) to a response and the next store state.

Conventions of the embedding.

* An `ObjectId` is a natural number.  A request parameter that names a
  document is an `IdParam`: either text that casts to an ObjectId or text that
  does not.  A query on an id that does not cast throws (CastError), which
  the handler's `catch` turns into 500; `comments.id` and `replies.id` of
  such an id are `null`.
* A date is a natural number (milliseconds).  `new Date()` and the ObjectId
  generated for a new document are read from an `Env` passed to the handler.
* `auth` is outside the router: a handler behind `auth` receives the actor's
  id (`req.user._id`).
* `populate` only decorates the response with display fields; responses carry
  the stored documents.
* Each handler runs to completion on the store (no interleaving).  A `catch`
  branch (500) is taken when a query throws on an id that does not cast, when
  the store rejects the query of the list handler, or when the handler reads
  a property of `null`.
* A number of the list handler is a double: NaN, an infinity, or an integer
  (`JsNumber`).  Sums and products are rounded to the nearest double.
-/

namespace Bagpacks

abbrev ObjectId := Nat

/-- A request value that names a document: `oid n` is text that casts to the
ObjectId `n`, `malformed raw` is text that does not cast. -/
inductive IdParam where
  | oid (id : ObjectId)
  | malformed (raw : String)
deriving DecidableEq

/-- The cast of a request value to an ObjectId; `none` when the cast fails. -/
def castObjectId (p : IdParam) : Option ObjectId :=
  match p with
  | .oid id => some id
  | .malformed _ => none

/-- A double of the list handler: NaN, an integer, or an infinity. -/
inductive JsNumber where
  | nan
  | fin (v : Int)
  | inf (negative : Bool)
deriving DecidableEq

/-! ## Documents -/

structure Reply where
  _id : ObjectId
  userId : ObjectId
  text : String
  likes : List ObjectId
  createdAt : Nat
  updatedAt : Nat
deriving DecidableEq

structure Comment where
  _id : ObjectId
  userId : ObjectId
  text : String
  likes : List ObjectId
  replies : List Reply
  createdAt : Nat
  updatedAt : Nat
deriving DecidableEq

structure CommunityPost where
  _id : ObjectId
  userId : ObjectId
  title : String
  story : String
  adventureId : Option ObjectId
  media : List String
  tags : List String
  likes : List ObjectId
  comments : List Comment
  createdAt : Nat
  updatedAt : Nat
deriving DecidableEq

/-- The fields of `models/Adventure.js` that the community router reads. -/
structure Adventure where
  _id : ObjectId
  userId : ObjectId
  destination : String
deriving DecidableEq

structure Store where
  posts : List CommunityPost
  adventures : List Adventure
deriving DecidableEq

/-- What a handler reads from its surroundings: the clock (`new Date()`) and
the ObjectId generated for a document created by the request. -/
structure Env where
  now : Nat
  newId : ObjectId
deriving DecidableEq

/-! ## Responses -/

inductive Body where
  | message (m : String)
  | post (p : CommunityPost)
  | comment (c : Comment)
  | reply (r : Reply)
  | likeState (likes : Nat) (isLiked : Bool)
  | page (posts : List CommunityPost) (currentPage : JsNumber) (totalPages : JsNumber)
      (totalPosts : Nat)
  | error (message : String)
deriving DecidableEq

structure Response where
  status : Nat
  body : Body
deriving DecidableEq

/-- The answer of a handler's `catch` when a query throws on an id that does
not cast: 500 with the error's message (shortened here). -/
def castError : Response :=
  ⟨500, .error "Cast to ObjectId failed"⟩

/-! ## Array and document-array operations -/

/-- The scan of `indexOf` from position `i`: the first index holding `a`, else -1. -/
def indexOfFrom (a : ObjectId) : List ObjectId → Nat → Int
  | [], _ => -1
  | x :: xs, i => if x = a then (i : Int) else indexOfFrom a xs (i + 1)

/-- The call `arr.indexOf(a)`. -/
def indexOf (xs : List ObjectId) (a : ObjectId) : Int :=
  indexOfFrom a xs 0

/-- The call `arr.splice(start, 1)`: the array without the element at `start`
(a negative `start` counts from the end). -/
def splice1 (xs : List ObjectId) (start : Int) : List ObjectId :=
  xs.eraseIdx (if start < 0 then ((xs.length : Int) + start).toNat else start.toNat)

/-- The call `arr.push(a)`. -/
def push {α : Type} (xs : List α) (a : α) : List α :=
  xs ++ [a]

/-- The like/unlike block shared by the three like handlers
(`indexOf`, then `splice` or `push`): the new likes, and `likeIndex`. -/
def toggleLike (likes : List ObjectId) (actor : ObjectId) : List ObjectId × Int :=
  let likeIndex := indexOf likes actor
  if likeIndex > -1 then (splice1 likes likeIndex, likeIndex)
  else (push likes actor, likeIndex)

/-- The response body with `likes: likes.length` and `isLiked: likeIndex === -1`. -/
def likeBody (likes : List ObjectId) (likeIndex : Int) : Body :=
  .likeState likes.length (decide (likeIndex = -1))

/-- The call `comments.id(commentId)`: the first comment with that `_id`. -/
def commentById (cs : List Comment) (commentId : ObjectId) : Option Comment :=
  cs.find? (fun c => c._id = commentId)

/-- The call `replies.id(replyId)`: the first reply with that `_id`. -/
def replyById (rs : List Reply) (replyId : ObjectId) : Option Reply :=
  rs.find? (fun r => r._id = replyId)

/-- The call `comments.pull(commentId)`: every comment with that `_id` is removed. -/
def pullComment (cs : List Comment) (commentId : ObjectId) : List Comment :=
  cs.filter (fun c => c._id ≠ commentId)

/-- The call `replies.pull(replyId)`: every reply with that `_id` is removed. -/
def pullReply (rs : List Reply) (replyId : ObjectId) : List Reply :=
  rs.filter (fun r => r._id ≠ replyId)

/-- A subdocument got from `comments.id(commentId)` is a reference into the
array: after it is mutated to `c`, the array holds `c` at the place of the
first comment with that `_id`. -/
def setComment (c : Comment) : List Comment → List Comment
  | [] => []
  | x :: xs => if x._id = c._id then c :: xs else x :: setComment c xs

/-- The same for a reply got from `replies.id(replyId)`. -/
def setReply (r : Reply) : List Reply → List Reply
  | [] => []
  | x :: xs => if x._id = r._id then r :: xs else x :: setReply r xs

/-! ## Collection operations -/

/-- The query `CommunityPost.findById(id)`. -/
def findById (s : Store) (id : ObjectId) : Option CommunityPost :=
  s.posts.find? (fun p => p._id = id)

/-- The query `CommunityPost.findOne` on `_id: id` and `userId: actor`. -/
def findOne (s : Store) (id actor : ObjectId) : Option CommunityPost :=
  s.posts.find? (fun p => p._id = id ∧ p.userId = actor)

/-- The query `Adventure.findOne` on `_id: id` and `userId: actor`. -/
def findAdventure (s : Store) (id actor : ObjectId) : Option Adventure :=
  s.adventures.find? (fun a => a._id = id ∧ a.userId = actor)

/-- The stored document with the `_id` of `p` is replaced by `p`. -/
def replaceDoc (p : CommunityPost) : List CommunityPost → List CommunityPost
  | [] => []
  | q :: qs => if q._id = p._id then p :: qs else q :: replaceDoc p qs

/-- The call `post.save()` on a document loaded from the store. -/
def save (s : Store) (p : CommunityPost) : Store :=
  { s with posts := replaceDoc p s.posts }

/-- The call `post.save()` on a document made with `new CommunityPost(...)`. -/
def insert (s : Store) (p : CommunityPost) : Store :=
  { s with posts := s.posts ++ [p] }

/-- The call `CommunityPost.findByIdAndDelete(id)`: the first document with that `_id`
is removed. -/
def findByIdAndDelete (s : Store) (id : ObjectId) : Store :=
  { s with posts := s.posts.eraseP (fun p => p._id = id) }

/-- The call `CommunityPost.countDocuments()`. -/
def countDocuments (s : Store) : Nat :=
  s.posts.length

/-! ## Schema casts

`models/CommunityPost.js` is not part of the sources at hand; what the schema
does to a pushed subdocument and to a new post is taken from the
specification. -/

/-- Modelled from the spec: the comment subschema of `models/CommunityPost.js`.
A pushed object of `userId` and `text` becomes a Comment with a generated identity,
empty likes and replies, and creation timestamps. -/
def castComment (env : Env) (userId : ObjectId) (text : String) : Comment :=
  { _id := env.newId, userId := userId, text := text, likes := [], replies := [],
    createdAt := env.now, updatedAt := env.now }

/-- Modelled from the spec: the reply subschema of `models/CommunityPost.js`.
A pushed object of `userId` and `text` becomes a Reply with a generated identity, empty
likes, and creation timestamps. -/
def castReply (env : Env) (userId : ObjectId) (text : String) : Reply :=
  { _id := env.newId, userId := userId, text := text, likes := [],
    createdAt := env.now, updatedAt := env.now }

/-- Modelled from the spec: the post schema of `models/CommunityPost.js`.
`new CommunityPost(...)` gets a generated identity, empty likes and comments,
and creation timestamps. -/
def newCommunityPost (env : Env) (userId : ObjectId) (title story : String)
    (adventureId : Option ObjectId) (media tags : List String) : CommunityPost :=
  { _id := env.newId, userId := userId, title := title, story := story,
    adventureId := adventureId, media := media, tags := tags, likes := [],
    comments := [], createdAt := env.now, updatedAt := env.now }

/-! ## Handlers: posts -/

/-- The body of `PUT /:id` and `POST /` (`media` and `tags` may be absent; an
absent or falsy `adventureId` is `none`). -/
structure PostInput where
  title : String
  story : String
  adventureId : Option IdParam
  media : Option (List String)
  tags : Option (List String)
deriving DecidableEq

/-- Handler of `PUT /:id`: update post (only by author). -/
def putPost (env : Env) (actor : ObjectId) (id : IdParam) (body : PostInput) (s : Store) :
    Response × Store :=
  match castObjectId id with
  | none => (castError, s)
  | some id =>
    match findOne s id actor with
    | none => (⟨404, .message "Post not found or unauthorized"⟩, s)
    | some post =>
      let post := { post with
        title := body.title, story := body.story,
        media := body.media.getD [], tags := body.tags.getD [],
        updatedAt := env.now }
      let s := save s post
      match findById s post._id with
      | some updatedPost => (⟨200, .post updatedPost⟩, s)
      | none => (⟨200, .message "null"⟩, s)

/-- Lines 97 to 112 of `POST /`: the post is made, saved, read back and sent. -/
def createPost (env : Env) (actor : ObjectId) (body : PostInput)
    (adventureId : Option ObjectId) (s : Store) : Response × Store :=
  let post := newCommunityPost env actor body.title body.story adventureId
    (body.media.getD []) (body.tags.getD [])
  let s := insert s post
  match findById s post._id with
  | some populatedPost => (⟨201, .post populatedPost⟩, s)
  | none => (⟨201, .message "null"⟩, s)

/-- Handler of `POST /`: create a new community post. -/
def postPost (env : Env) (actor : ObjectId) (body : PostInput) (s : Store) :
    Response × Store :=
  match body.adventureId with
  | some adventureId =>
    match castObjectId adventureId with
    | none => (castError, s)
    | some adventureId =>
      match findAdventure s adventureId actor with
      | none => (⟨404, .message "Adventure not found"⟩, s)
      | some _ => createPost env actor body (some adventureId) s
  | none => createPost env actor body none s

/-- Handler of `DELETE /:id`: delete a post (only by owner). -/
def deletePost (actor : ObjectId) (id : IdParam) (s : Store) : Response × Store :=
  match castObjectId id with
  | none => (castError, s)
  | some id =>
    match findOne s id actor with
    | none => (⟨404, .message "Post not found or unauthorized"⟩, s)
    | some _ => (⟨200, .message "Post deleted successfully"⟩, findByIdAndDelete s id)

/-! ## Handlers: likes -/

/-- Handler of `PUT /:id/like`: like/unlike a post. -/
def putPostLike (actor : ObjectId) (id : IdParam) (s : Store) : Response × Store :=
  match castObjectId id with
  | none => (castError, s)
  | some id =>
    match findById s id with
    | none => (⟨404, .message "Post not found"⟩, s)
    | some post =>
      let (likes, likeIndex) := toggleLike post.likes actor
      let post := { post with likes := likes }
      (⟨200, likeBody post.likes likeIndex⟩, save s post)

/-- Handler of `PUT /:postId/comments/:commentId/like`: like/unlike a comment. -/
def putCommentLike (actor : ObjectId) (postId commentId : IdParam) (s : Store) :
    Response × Store :=
  match castObjectId postId with
  | none => (castError, s)
  | some postId =>
    match findById s postId with
    | none => (⟨404, .message "Post not found"⟩, s)
    | some post =>
      match (castObjectId commentId).bind (commentById post.comments) with
      | none => (⟨404, .message "Comment not found"⟩, s)
      | some comment =>
        let (likes, likeIndex) := toggleLike comment.likes actor
        let comment := { comment with likes := likes }
        let post := { post with comments := setComment comment post.comments }
        (⟨200, likeBody comment.likes likeIndex⟩, save s post)

/-- Handler of `PUT /:postId/comments/:commentId/replies/:replyId/like`: like/unlike a
reply. -/
def putReplyLike (actor : ObjectId) (postId commentId replyId : IdParam) (s : Store) :
    Response × Store :=
  match castObjectId postId with
  | none => (castError, s)
  | some postId =>
    match findById s postId with
    | none => (⟨404, .message "Post not found"⟩, s)
    | some post =>
      match (castObjectId commentId).bind (commentById post.comments) with
      | none => (⟨404, .message "Comment not found"⟩, s)
      | some comment =>
        match (castObjectId replyId).bind (replyById comment.replies) with
        | none => (⟨404, .message "Reply not found"⟩, s)
        | some reply =>
          let (likes, likeIndex) := toggleLike reply.likes actor
          let reply := { reply with likes := likes }
          let comment := { comment with replies := setReply reply comment.replies }
          let post := { post with comments := setComment comment post.comments }
          (⟨200, likeBody reply.likes likeIndex⟩, save s post)

/-! ## Handlers: comments and replies -/

/-- Handler of `POST /:id/comments`: add comment to a post.  The response is the last
comment of the post read back from the store. -/
def postComment (env : Env) (actor : ObjectId) (id : IdParam) (text : String) (s : Store) :
    Response × Store :=
  match castObjectId id with
  | none => (castError, s)
  | some id =>
    match findById s id with
    | none => (⟨404, .message "Post not found"⟩, s)
    | some post =>
      let post := { post with comments := push post.comments (castComment env actor text) }
      let s := save s post
      match findById s id with
      | none => (⟨500, .error "Cannot read properties of null"⟩, s)
      | some updatedPost =>
        match updatedPost.comments.getLast? with
        | some newComment => (⟨201, .comment newComment⟩, s)
        | none => (⟨201, .message "undefined"⟩, s)

/-- Handler of `POST /:postId/comments/:commentId/replies`: reply to a comment.  The
response is the last reply of the comment read back from the store. -/
def postReply (env : Env) (actor : ObjectId) (postId commentId : IdParam) (text : String)
    (s : Store) : Response × Store :=
  match castObjectId postId with
  | none => (castError, s)
  | some postId =>
    match findById s postId with
    | none => (⟨404, .message "Post not found"⟩, s)
    | some post =>
      match (castObjectId commentId).bind (commentById post.comments) with
      | none => (⟨404, .message "Comment not found"⟩, s)
      | some comment =>
        let comment :=
          { comment with replies := push comment.replies (castReply env actor text) }
        let post := { post with comments := setComment comment post.comments }
        let s := save s post
        match (findById s postId).bind (fun updatedPost =>
            (castObjectId commentId).bind (commentById updatedPost.comments)) with
        | none => (⟨500, .error "Cannot read properties of null"⟩, s)
        | some updatedComment =>
          match updatedComment.replies.getLast? with
          | some newReply => (⟨201, .reply newReply⟩, s)
          | none => (⟨201, .message "undefined"⟩, s)

/-- Handler of `DELETE /:postId/comments/:commentId`: delete a comment. -/
def deleteComment (actor : ObjectId) (postId commentId : IdParam) (s : Store) :
    Response × Store :=
  match castObjectId postId with
  | none => (castError, s)
  | some postId =>
    match findById s postId with
    | none => (⟨404, .message "Post not found"⟩, s)
    | some post =>
      match castObjectId commentId with
      | none => (⟨404, .message "Comment not found"⟩, s)
      | some commentId =>
        match commentById post.comments commentId with
        | none => (⟨404, .message "Comment not found"⟩, s)
        | some comment =>
          if comment.userId ≠ actor then
            (⟨403, .message "Not authorized to delete this comment"⟩, s)
          else
            let post := { post with comments := pullComment post.comments commentId }
            (⟨200, .message "Comment deleted successfully"⟩, save s post)

/-- Handler of `PUT /:postId/comments/:commentId`: update a comment.  The response is the
comment read back from the store. -/
def putComment (env : Env) (actor : ObjectId) (postId commentId : IdParam) (text : String)
    (s : Store) : Response × Store :=
  match castObjectId postId with
  | none => (castError, s)
  | some postId =>
    match findById s postId with
    | none => (⟨404, .message "Post not found"⟩, s)
    | some post =>
      match (castObjectId commentId).bind (commentById post.comments) with
      | none => (⟨404, .message "Comment not found"⟩, s)
      | some comment =>
        if comment.userId ≠ actor then
          (⟨403, .message "Not authorized to edit this comment"⟩, s)
        else
          let comment := { comment with text := text, updatedAt := env.now }
          let post := { post with comments := setComment comment post.comments }
          let s := save s post
          match findById s postId with
          | none => (⟨500, .error "Cannot read properties of null"⟩, s)
          | some updatedPost =>
            match (castObjectId commentId).bind (commentById updatedPost.comments) with
            | some updatedComment => (⟨200, .comment updatedComment⟩, s)
            | none => (⟨200, .message "null"⟩, s)

/-- Handler of `DELETE /:postId/comments/:commentId/replies/:replyId`: delete a reply. -/
def deleteReply (actor : ObjectId) (postId commentId replyId : IdParam) (s : Store) :
    Response × Store :=
  match castObjectId postId with
  | none => (castError, s)
  | some postId =>
    match findById s postId with
    | none => (⟨404, .message "Post not found"⟩, s)
    | some post =>
      match (castObjectId commentId).bind (commentById post.comments) with
      | none => (⟨404, .message "Comment not found"⟩, s)
      | some comment =>
        match castObjectId replyId with
        | none => (⟨404, .message "Reply not found"⟩, s)
        | some replyId =>
          match replyById comment.replies replyId with
          | none => (⟨404, .message "Reply not found"⟩, s)
          | some reply =>
            if reply.userId ≠ actor then
              (⟨403, .message "Not authorized to delete this reply"⟩, s)
            else
              let comment := { comment with replies := pullReply comment.replies replyId }
              let post := { post with comments := setComment comment post.comments }
              (⟨200, .message "Reply deleted successfully"⟩, save s post)

/-- Handler of `PUT /:postId/comments/:commentId/replies/:replyId`: update a reply.  The
response is the reply read back from the store. -/
def putReply (env : Env) (actor : ObjectId) (postId commentId replyId : IdParam)
    (text : String) (s : Store) : Response × Store :=
  match castObjectId postId with
  | none => (castError, s)
  | some postId =>
    match findById s postId with
    | none => (⟨404, .message "Post not found"⟩, s)
    | some post =>
      match (castObjectId commentId).bind (commentById post.comments) with
      | none => (⟨404, .message "Comment not found"⟩, s)
      | some comment =>
        match (castObjectId replyId).bind (replyById comment.replies) with
        | none => (⟨404, .message "Reply not found"⟩, s)
        | some reply =>
          if reply.userId ≠ actor then
            (⟨403, .message "Not authorized to edit this reply"⟩, s)
          else
            let reply := { reply with text := text, updatedAt := env.now }
            let comment := { comment with replies := setReply reply comment.replies }
            let post := { post with comments := setComment comment post.comments }
            let s := save s post
            match (findById s postId).bind (fun updatedPost =>
                (castObjectId commentId).bind (commentById updatedPost.comments)) with
            | none => (⟨500, .error "Cannot read properties of null"⟩, s)
            | some updatedComment =>
              match (castObjectId replyId).bind (replyById updatedComment.replies) with
              | some updatedReply => (⟨200, .reply updatedReply⟩, s)
              | none => (⟨200, .message "null"⟩, s)

/-! ## Numbers of the list handler -/

/-- The number of binary digits of `n`, counted in at most `fuel` steps. -/
def bitLengthAux : Nat → Nat → Nat
  | 0, _ => 0
  | fuel + 1, n => if n = 0 then 0 else bitLengthAux fuel (n / 2) + 1

/-- The number of binary digits of `n`. -/
def bitLength (n : Nat) : Nat :=
  bitLengthAux n n

/-- The double nearest to the natural number `n` (ties go to the even
significand of 53 binary digits); `none` when `n` rounds to a number of more
than 1024 binary digits, beyond the largest double.  Below 2^53 every natural
number is a double. -/
def roundDouble (n : Nat) : Option Nat :=
  if n < 2 ^ 53 then some n
  else
    let e := bitLength n - 53
    let q := n / 2 ^ e
    let r := n % 2 ^ e
    let q := if 2 ^ e < 2 * r ∨ (2 * r = 2 ^ e ∧ q % 2 = 1) then q + 1 else q
    if bitLength q + e ≤ 1024 then some (q * 2 ^ e) else none

/-- The double nearest to the integer `v`. -/
def JsNumber.ofInt (v : Int) : JsNumber :=
  match roundDouble v.natAbs with
  | some m => .fin (if v < 0 then -(m : Int) else (m : Int))
  | none => .inf (decide (v < 0))

/-- The difference `a - b` of two numbers. -/
def JsNumber.sub (a b : JsNumber) : JsNumber :=
  match a, b with
  | .nan, _ => .nan
  | _, .nan => .nan
  | .fin x, .fin y => JsNumber.ofInt (x - y)
  | .inf n, .fin _ => .inf n
  | .fin _, .inf n => .inf (!n)
  | .inf n, .inf m => if n = m then .nan else .inf n

/-- The product `a * b` of two numbers. -/
def JsNumber.mul (a b : JsNumber) : JsNumber :=
  match a, b with
  | .nan, _ => .nan
  | _, .nan => .nan
  | .fin x, .fin y => JsNumber.ofInt (x * y)
  | .inf n, .fin y => if y = 0 then .nan else .inf (xor n (decide (y < 0)))
  | .fin x, .inf n => if x = 0 then .nan else .inf (xor n (decide (x < 0)))
  | .inf n, .inf m => .inf (xor n m)

/-! ## Handler: listing -/

/-- White space that `parseInt` skips at the start of its input. -/
def isWhiteSpace (c : Char) : Bool :=
  let n := c.toNat
  decide (n = 9 ∨ n = 10 ∨ n = 11 ∨ n = 12 ∨ n = 13 ∨ n = 32 ∨ n = 160 ∨ n = 5760 ∨
    (8192 ≤ n ∧ n ≤ 8202) ∨ n = 8232 ∨ n = 8233 ∨ n = 8239 ∨ n = 8287 ∨ n = 12288 ∨
    n = 65279)

/-- The value of `c` as a digit of radix `R`, if it is one. -/
def radixDigit (R : Nat) (c : Char) : Option Nat :=
  let n := c.toNat
  let v : Option Nat :=
    if 48 ≤ n ∧ n ≤ 57 then some (n - 48)
    else if 97 ≤ n ∧ n ≤ 122 then some (n - 87)
    else if 65 ≤ n ∧ n ≤ 90 then some (n - 55)
    else none
  v.bind (fun d => if d < R then some d else none)

/-- The values of the longest prefix of radix-`R` digits. -/
def takeDigits (R : Nat) : List Char → List Nat
  | [] => []
  | c :: cs =>
    match radixDigit R c with
    | some d => d :: takeDigits R cs
    | none => []

/-- The number written by the digits `ds` in radix `R`. -/
def digitsValue (R : Nat) (ds : List Nat) : Nat :=
  ds.foldl (fun acc d => acc * R + d) 0

/-- The sign that `parseInt` reads: -1 when the text starts with `-`. -/
def signOf (S : List Char) : Int :=
  match S with
  | c :: _ => if c.toNat = 45 then -1 else 1
  | [] => 1

/-- The text after a leading `+` or `-`, if there is one. -/
def stripSign (S : List Char) : List Char :=
  match S with
  | c :: cs => if c.toNat = 43 ∨ c.toNat = 45 then cs else c :: cs
  | [] => []

/-- The radix and the text to read digits from: a leading `0x` or `0X` is
removed and selects radix 16, otherwise the radix is 10. -/
def radixAndDigits (S : List Char) : Nat × List Char :=
  match S with
  | a :: b :: cs =>
    if a.toNat = 48 ∧ (b.toNat = 120 ∨ b.toNat = 88) then (16, cs) else (10, a :: b :: cs)
  | S => (10, S)

/-- The call `parseInt(input)` with no radix.  White space is skipped, a sign is
read, `0x` selects radix 16, and the longest prefix of digits is the number
(whatever follows is ignored), rounded to the nearest double; with no digit
the result is NaN. -/
def parseInt (input : String) : JsNumber :=
  let S := input.toList.dropWhile isWhiteSpace
  let RS := radixAndDigits (stripSign S)
  let Z := takeDigits RS.1 RS.2
  if Z = [] then .nan else JsNumber.ofInt (signOf S * (digitsValue RS.1 Z : Int))

/-- The string `String(v)` of a query value: an absent one is `undefined` (a
repeated or nested parameter enters through its string form). -/
def queryString (v : Option String) : String :=
  v.getD "undefined"

/-- The value of `n || d` for a number `n`: NaN and 0 are falsy. -/
def numberOr (n : JsNumber) (d : JsNumber) : JsNumber :=
  match n with
  | .nan => d
  | .fin v => if v = 0 then d else .fin v
  | .inf negative => .inf negative

/-- The value of `s || d` for a query string `s`: `undefined` and the empty string are
falsy. -/
def stringOr (s : Option String) (d : String) : String :=
  match s with
  | none => d
  | some v => if v = "" then d else v

/-- The query of `GET /`. -/
structure ListQuery where
  page : Option String
  limit : Option String
  sortBy : Option String
  order : Option String
deriving DecidableEq

/-- Line 11: `parseInt(req.query.page) || 1`. -/
def pageOf (q : ListQuery) : JsNumber :=
  numberOr (parseInt (queryString q.page)) (.fin 1)

/-- Line 12: `parseInt(req.query.limit) || 10`. -/
def limitOf (q : ListQuery) : JsNumber :=
  numberOr (parseInt (queryString q.limit)) (.fin 10)

/-- Line 13: `(page - 1) * limit`. -/
def skipOf (q : ListQuery) : JsNumber :=
  ((pageOf q).sub (.fin 1)).mul (limitOf q)

/-- Line 14: `req.query.sortBy || 'createdAt'`. -/
def sortByOf (q : ListQuery) : String :=
  stringOr q.sortBy "createdAt"

/-- Line 15: `req.query.order === 'asc' ? 1 : -1`. -/
def orderOf (q : ListQuery) : Int :=
  if q.order = some "asc" then 1 else -1

/-- A sort of the documents by a field: an insertion sort, ascending
(`order = 1`) or descending, which keeps documents with equal values of the
field in the order they are given.  `key sortBy p` stands for the value of
field `sortBy` of `p` in the store's comparison order. -/
def sortDocs {K : Type} [LinearOrder K] (key : String → CommunityPost → K)
    (sortBy : String) (order : Int) (docs : List CommunityPost) : List CommunityPost :=
  if order = 1 then docs.insertionSort (fun a b => key sortBy a ≤ key sortBy b)
  else docs.insertionSort (fun a b => key sortBy b ≤ key sortBy a)

/-- Another sort of the documents by a field: `sortDocs` on the documents taken
in reverse, so that documents with equal values of the field come out in the
opposite order. -/
def sortDocsRev {K : Type} [LinearOrder K] (key : String → CommunityPost → K)
    (sortBy : String) (order : Int) (docs : List CommunityPost) : List CommunityPost :=
  sortDocs key sortBy order docs.reverse

/-- The steps `.skip(skip).limit(limit)` on the sorted documents, for integers in
the range of the store.  The store rejects (`none`) a negative skip and a skip
or limit that is not finite; it reads a negative limit as its absolute value
and limit 0 as no limit. -/
def skipLimit (skip limit : JsNumber) (docs : List CommunityPost) :
    Option (List CommunityPost) :=
  match skip, limit with
  | .fin skip, .fin limit =>
    if skip < 0 then none
    else if limit = 0 then some (docs.drop skip.toNat)
    else some ((docs.drop skip.toNat).take limit.natAbs)
  | _, _ => none

/-- The value `Math.ceil(total / limit)`.  For a finite `limit` other than 0 it
is the ceiling of the exact quotient, which is what the ceiling of the double
quotient is for fewer than 2^53 documents. -/
def totalPagesOf (total : Nat) (limit : JsNumber) : JsNumber :=
  match limit with
  | .nan => .nan
  | .inf _ => .fin 0
  | .fin l =>
    if l = 0 then (if total = 0 then .nan else .inf false)
    else .fin ⌈(total : ℚ) / (l : ℚ)⌉

/-- Handler of `GET /`: get all community posts with pagination.  `storeSort` is
the store's `.sort` for this request: the store sorts anew for every request,
and how it orders documents with equal values of the sort field is its own
choice (see `IsStoreSort`). -/
def getPosts (storeSort : String → Int → List CommunityPost → List CommunityPost)
    (q : ListQuery) (s : Store) : Response :=
  let page := pageOf q
  let limit := limitOf q
  let skip := skipOf q
  let sortBy := sortByOf q
  let order := orderOf q
  match skipLimit skip limit (storeSort sortBy order s.posts) with
  | none => ⟨500, .error "Internal server error"⟩
  | some posts =>
    let total := countDocuments s
    ⟨200, .page posts page (totalPagesOf total limit) total⟩

/-- The function `sort` is a sort of the store for the comparison key `key`: for
every field and order its result is a rearrangement of the documents that is
ascending (`order = 1`) or descending in the field.  The order of documents
with equal values of the field is not fixed. -/
def IsStoreSort {K : Type} [LinearOrder K] (key : String → CommunityPost → K)
    (sort : String → Int → List CommunityPost → List CommunityPost) : Prop :=
  ∀ (sortBy : String) (order : Int) (docs : List CommunityPost),
    (sort sortBy order docs).Perm docs ∧
    (order = 1 → (sort sortBy order docs).Sorted
      (fun a b => key sortBy a ≤ key sortBy b)) ∧
    (order ≠ 1 → (sort sortBy order docs).Sorted
      (fun a b => key sortBy b ≤ key sortBy a))

/-! ## Sample data -/

def sampleReply : Reply :=
  { _id := 31, userId := 1, text := "thanks", likes := [], createdAt := 3, updatedAt := 3 }

def sampleComment : Comment :=
  { _id := 21, userId := 2, text := "nice!", likes := [1], replies := [sampleReply],
    createdAt := 2, updatedAt := 2 }

def otherComment : Comment :=
  { _id := 22, userId := 1, text := "more", likes := [], replies := [],
    createdAt := 4, updatedAt := 4 }

def samplePost : CommunityPost :=
  { _id := 11, userId := 1, title := "Goa", story := "sun", adventureId := none,
    media := [], tags := ["beach"], likes := [1], comments := [sampleComment, otherComment],
    createdAt := 1, updatedAt := 1 }

def otherPost : CommunityPost :=
  { _id := 12, userId := 2, title := "Leh", story := "snow", adventureId := some 41,
    media := [], tags := [], likes := [2, 2], comments := [], createdAt := 5, updatedAt := 5 }

def sampleStore : Store :=
  { posts := [samplePost, otherPost],
    adventures := [{ _id := 41, userId := 2, destination := "Leh" }] }

/-- Two posts made at the same time, so equal in `createdAt`. -/
def tiedPostA : CommunityPost :=
  { _id := 13, userId := 1, title := "Agra", story := "dawn", adventureId := none,
    media := [], tags := [], likes := [], comments := [], createdAt := 7, updatedAt := 7 }

def tiedPostB : CommunityPost :=
  { _id := 14, userId := 2, title := "Ooty", story := "tea", adventureId := none,
    media := [], tags := [], likes := [], comments := [], createdAt := 7, updatedAt := 7 }

def tiedStore : Store :=
  { posts := [tiedPostA, tiedPostB], adventures := [] }

def sampleEnv : Env :=
  { now := 100, newId := 99 }

def sampleInput : PostInput :=
  { title := "Hampi", story := "ruins", adventureId := some (.oid 41), media := none,
    tags := some ["history"] }

/-- A comparison key for the sample data: dates and ids by their number, other
fields all equal. -/
def sampleKey (sortBy : String) (p : CommunityPost) : Nat :=
  if sortBy = "createdAt" then p.createdAt
  else if sortBy = "updatedAt" then p.updatedAt
  else if sortBy = "_id" then p._id
  else 0

/-! ## Predicates used in the statements -/

/-- One toggle by `actor` took the likes from `before` to `after` and answered
`r`: exactly the membership of `actor` flipped, no duplicate arose, and the
answer reports the size of `after` and whether `actor` is in it. -/
def FlipsLike (actor : ObjectId) (before after : List ObjectId) (r : Response) : Prop :=
  (actor ∈ after ↔ actor ∉ before) ∧
  (∀ u, u ≠ actor → (u ∈ after ↔ u ∈ before)) ∧
  after.Nodup ∧
  r = ⟨200, .likeState after.length (decide (actor ∈ after))⟩

/-- Two toggles by `actor` took the likes from `before` to `after` and the
second answered `r`: the likes are the same users as before, and the answer
is 200 with the count before and whether `actor` was among the likes before. -/
def RestoresLikes (actor : ObjectId) (before after : List ObjectId) (r : Response) : Prop :=
  after.Perm before ∧ after.length = before.length ∧
  r = ⟨200, .likeState before.length (decide (actor ∈ before))⟩

/-- The comment that the walk post → comment reaches, if both levels exist. -/
def resolveComment (s : Store) (postId commentId : IdParam) : Option Comment :=
  (castObjectId postId).bind (fun pid =>
    (findById s pid).bind (fun p =>
      (castObjectId commentId).bind (commentById p.comments)))

/-- The reply that the walk post → comment → reply reaches, if all levels exist. -/
def resolveReply (s : Store) (postId commentId replyId : IdParam) : Option Reply :=
  (resolveComment s postId commentId).bind (fun c =>
    (castObjectId replyId).bind (replyById c.replies))

/-- The outcome `out` of an author-only handler run by `actor` on store `s` for
the post id `postId`, where `author` is the author of the target the walk
reaches (`none` when a level does not exist): 500 exactly when `postId` does
not cast to an ObjectId, 404 exactly when it casts and a level is missing, 403
exactly when the target exists and `actor` is not its author, 200 exactly
when the target exists and `actor` is its author; unless 200, the store is as
before. -/
def AuthorGated (postId : IdParam) (author : Option ObjectId) (actor : ObjectId)
    (s : Store) (out : Response × Store) : Prop :=
  (out.1.status = 500 ↔ castObjectId postId = none) ∧
  (out.1.status = 404 ↔ castObjectId postId ≠ none ∧ author = none) ∧
  (out.1.status = 403 ↔ ∃ a, author = some a ∧ a ≠ actor) ∧
  (out.1.status = 200 ↔ author = some actor) ∧
  (out.1.status ≠ 200 → out.2 = s)

/-! ## Lemmas: arrays -/

theorem indexOfFrom_eq (a : ObjectId) (xs : List ObjectId) (i : Nat) :
    indexOfFrom a xs i = if a ∈ xs then ((i + List.indexOf a xs : Nat) : Int) else -1 := by
  induction xs generalizing i with
  | nil => simp [indexOfFrom]
  | cons x xs ih =>
    by_cases hx : x = a
    · subst hx
      simp [indexOfFrom]
    · have hx' : a ≠ x := fun h => hx h.symm
      simp only [indexOfFrom, if_neg hx, ih, List.mem_cons, hx', false_or,
        List.indexOf_cons_ne _ hx]
      split
      · simp only [Nat.cast_inj]
        omega
      · rfl

theorem toggleLike_of_mem {likes : List ObjectId} {a : ObjectId} (h : a ∈ likes) :
    toggleLike likes a = (likes.erase a, (List.indexOf a likes : Int)) := by
  have e : indexOf likes a = (List.indexOf a likes : Int) := by
    simp [indexOf, indexOfFrom_eq, h]
  have hpos : (List.indexOf a likes : Int) > -1 := by omega
  simp only [toggleLike, e, if_pos hpos, splice1]
  have hn : ¬ ((List.indexOf a likes : Int) < 0) := by omega
  simp [hn]

theorem toggleLike_of_not_mem {likes : List ObjectId} {a : ObjectId} (h : a ∉ likes) :
    toggleLike likes a = (likes ++ [a], -1) := by
  have e : indexOf likes a = -1 := by
    simp [indexOf, indexOfFrom_eq, h]
  simp [toggleLike, e, push]

theorem toggleLike_flips (likes : List ObjectId) (a : ObjectId) (hnd : likes.Nodup) :
    FlipsLike a likes (toggleLike likes a).1
      ⟨200, likeBody (toggleLike likes a).1 (toggleLike likes a).2⟩ := by
  by_cases h : a ∈ likes
  · rw [toggleLike_of_mem h]
    have hno : a ∉ likes.erase a := hnd.not_mem_erase
    refine ⟨by simp [hno, h], ?_, hnd.erase a, ?_⟩
    · intro u hu
      exact List.mem_erase_of_ne hu
    · have hne : ¬ ((List.indexOf a likes : Int) = -1) := by omega
      simp [likeBody, hno, hne]
  · rw [toggleLike_of_not_mem h]
    refine ⟨by simp [h], ?_, ?_, ?_⟩
    · intro u hu
      simp [hu]
    · exact List.Nodup.append hnd (List.nodup_singleton a) (by simpa using h)
    · simp [likeBody]

/-! ## Lemmas: lookups and writes -/

theorem findById_id {s : Store} {id : ObjectId} {P : CommunityPost}
    (h : findById s id = some P) : P._id = id := by
  have := List.find?_some h
  simpa using this

theorem commentById_id {cs : List Comment} {id : ObjectId} {C : Comment}
    (h : commentById cs id = some C) : C._id = id := by
  have := List.find?_some h
  simpa using this

theorem replyById_id {rs : List Reply} {id : ObjectId} {R : Reply}
    (h : replyById rs id = some R) : R._id = id := by
  have := List.find?_some h
  simpa using this

theorem find_replaceDoc (P' : CommunityPost) (ps : List CommunityPost) (id : ObjectId)
    (hid : P'._id = id) (hex : (ps.find? (fun p => p._id = id)).isSome) :
    (replaceDoc P' ps).find? (fun p => p._id = id) = some P' := by
  induction ps with
  | nil => simp at hex
  | cons q qs ih =>
    by_cases hq : q._id = id
    · simp [replaceDoc, hq, hid]
    · have hq' : ¬ q._id = P'._id := by rw [hid]; exact hq
      simp only [replaceDoc, if_neg hq', List.find?_cons, hq, decide_False]
      apply ih
      simpa [List.find?_cons, hq] using hex

theorem findById_save {s : Store} {id : ObjectId} {P : CommunityPost}
    (h : findById s id = some P) (P' : CommunityPost) (hid : P'._id = id) :
    findById (save s P') id = some P' := by
  unfold findById save
  exact find_replaceDoc P' s.posts id hid (by unfold findById at h; simp [h])

theorem commentById_setComment {cs : List Comment} {id : ObjectId} {C : Comment}
    (h : commentById cs id = some C) (C' : Comment) (hid : C'._id = id) :
    commentById (setComment C' cs) id = some C' := by
  unfold commentById at *
  induction cs with
  | nil => simp at h
  | cons q qs ih =>
    by_cases hq : q._id = id
    · simp [setComment, hq, hid]
    · have hq' : ¬ q._id = C'._id := by rw [hid]; exact hq
      simp only [setComment, if_neg hq', List.find?_cons, hq, decide_False]
      apply ih
      simpa [List.find?_cons, hq] using h

theorem replyById_setReply {rs : List Reply} {id : ObjectId} {R : Reply}
    (h : replyById rs id = some R) (R' : Reply) (hid : R'._id = id) :
    replyById (setReply R' rs) id = some R' := by
  unfold replyById at *
  induction rs with
  | nil => simp at h
  | cons q qs ih =>
    by_cases hq : q._id = id
    · simp [setReply, hq, hid]
    · have hq' : ¬ q._id = R'._id := by rw [hid]; exact hq
      simp only [setReply, if_neg hq', List.find?_cons, hq, decide_False]
      apply ih
      simpa [List.find?_cons, hq] using h

theorem putPostLike_found {s : Store} {id : ObjectId} {P : CommunityPost}
    (h : findById s id = some P) (actor : ObjectId) :
    putPostLike actor (.oid id) s =
      (⟨200, likeBody (toggleLike P.likes actor).1 (toggleLike P.likes actor).2⟩,
        save s { P with likes := (toggleLike P.likes actor).1 }) := by
  simp only [castObjectId, Option.some_bind, putPostLike, h]

theorem putCommentLike_found {s : Store} {postId commentId : ObjectId} {P : CommunityPost}
    {C : Comment} (h : findById s postId = some P)
    (hc : commentById P.comments commentId = some C) (actor : ObjectId) :
    putCommentLike actor (.oid postId) (.oid commentId) s =
      (⟨200, likeBody (toggleLike C.likes actor).1 (toggleLike C.likes actor).2⟩,
        save s { P with
          comments := setComment { C with likes := (toggleLike C.likes actor).1 } P.comments }) := by
  simp only [castObjectId, Option.some_bind, putCommentLike, h, hc]

theorem putReplyLike_found {s : Store} {postId commentId replyId : ObjectId}
    {P : CommunityPost} {C : Comment} {R : Reply} (h : findById s postId = some P)
    (hc : commentById P.comments commentId = some C)
    (hr : replyById C.replies replyId = some R) (actor : ObjectId) :
    putReplyLike actor (.oid postId) (.oid commentId) (.oid replyId) s =
      (⟨200, likeBody (toggleLike R.likes actor).1 (toggleLike R.likes actor).2⟩,
        save s { P with
          comments := setComment { C with
            replies := setReply { R with likes := (toggleLike R.likes actor).1 } C.replies }
              P.comments }) := by
  simp only [castObjectId, Option.some_bind, putReplyLike, h, hc, hr]



/-- C2: on an existing target (post, comment or reply) whose likes have no
duplicates, one like-toggle by `actor` flips exactly the membership of
`actor` in the stored likes, keeps them free of duplicates, and answers 200
with the size of the stored likes and whether `actor` is among them. -/
theorem like_toggle_flips_membership (actor postId commentId replyId : ObjectId)
    (s : Store) (P : CommunityPost) (hP : findById s postId = some P) :
    (P.likes.Nodup →
      ∃ likes, findById (putPostLike actor (.oid postId) s).2 postId = some { P with likes := likes } ∧
        FlipsLike actor P.likes likes (putPostLike actor (.oid postId) s).1) ∧
    (∀ C, commentById P.comments commentId = some C → C.likes.Nodup →
      ∃ likes,
        (findById (putCommentLike actor (.oid postId) (.oid commentId) s).2 postId).bind
            (fun p => commentById p.comments commentId) = some { C with likes := likes } ∧
        FlipsLike actor C.likes likes (putCommentLike actor (.oid postId) (.oid commentId) s).1) ∧
    (∀ C R, commentById P.comments commentId = some C →
      replyById C.replies replyId = some R → R.likes.Nodup →
      ∃ likes,
        ((findById (putReplyLike actor (.oid postId) (.oid commentId) (.oid replyId) s).2 postId).bind
            (fun p => commentById p.comments commentId)).bind
            (fun c => replyById c.replies replyId) = some { R with likes := likes } ∧
        FlipsLike actor R.likes likes (putReplyLike actor (.oid postId) (.oid commentId) (.oid replyId) s).1) := by
  have hPid := findById_id hP
  refine ⟨?_, ?_, ?_⟩
  · intro hnd
    refine ⟨(toggleLike P.likes actor).1, ?_, ?_⟩
    · rw [putPostLike_found hP]
      exact findById_save hP _ hPid
    · rw [putPostLike_found hP]
      exact toggleLike_flips P.likes actor hnd
  · intro C hC hnd
    have hCid := commentById_id hC
    refine ⟨(toggleLike C.likes actor).1, ?_, ?_⟩
    · rw [putCommentLike_found hP hC]
      simp only []
      rw [findById_save hP]
      · exact commentById_setComment hC _ hCid
      · exact hPid
    · rw [putCommentLike_found hP hC]
      exact toggleLike_flips C.likes actor hnd
  · intro C R hC hR hnd
    have hCid := commentById_id hC
    have hRid := replyById_id hR
    refine ⟨(toggleLike R.likes actor).1, ?_, ?_⟩
    · rw [putReplyLike_found hP hC hR]
      simp only []
      rw [findById_save hP]
      · simp only [Option.some_bind]
        rw [commentById_setComment hC]
        · exact replyById_setReply hR _ hRid
        · exact hCid
      · exact hPid
    · rw [putReplyLike_found hP hC hR]
      exact toggleLike_flips R.likes actor hnd

theorem like_toggle_flips_membership_witness :
    findById sampleStore 11 = some samplePost ∧
    (∃ likes, findById (putPostLike 2 (.oid 11) sampleStore).2 11 =
        some { samplePost with likes := likes } ∧
      FlipsLike 2 samplePost.likes likes (putPostLike 2 (.oid 11) sampleStore).1) ∧
    (∃ likes,
      (findById (putCommentLike 1 (.oid 11) (.oid 21) sampleStore).2 11).bind
          (fun p => commentById p.comments 21) = some { sampleComment with likes := likes } ∧
      FlipsLike 1 sampleComment.likes likes (putCommentLike 1 (.oid 11) (.oid 21) sampleStore).1) ∧
    (∃ likes,
      ((findById (putReplyLike 2 (.oid 11) (.oid 21) (.oid 31) sampleStore).2 11).bind
          (fun p => commentById p.comments 21)).bind
          (fun c => replyById c.replies 31) = some { sampleReply with likes := likes } ∧
      FlipsLike 2 sampleReply.likes likes (putReplyLike 2 (.oid 11) (.oid 21) (.oid 31) sampleStore).1) :=
  ⟨by decide,
    (like_toggle_flips_membership 2 11 21 31 sampleStore samplePost (by decide)).1 (by decide),
    (like_toggle_flips_membership 1 11 21 31 sampleStore samplePost (by decide)).2.1
      sampleComment (by decide) (by decide),
    (like_toggle_flips_membership 2 11 21 31 sampleStore samplePost (by decide)).2.2
      sampleComment sampleReply (by decide) (by decide) (by decide)⟩

theorem toggleLike_twice (likes : List ObjectId) (a : ObjectId) (hc : likes.count a ≤ 1) :
    RestoresLikes a likes (toggleLike (toggleLike likes a).1 a).1
      ⟨200, likeBody (toggleLike (toggleLike likes a).1 a).1
        (toggleLike (toggleLike likes a).1 a).2⟩ := by
  by_cases h : a ∈ likes
  · rw [toggleLike_of_mem h]
    have hno : a ∉ likes.erase a := by
      rw [← List.count_eq_zero, List.count_erase_self]
      omega
    simp only []
    rw [toggleLike_of_not_mem hno]
    have hp : (likes.erase a ++ [a]).Perm likes :=
      (List.perm_append_comm).trans (List.perm_cons_erase h).symm
    refine ⟨hp, hp.length_eq, ?_⟩
    simp [likeBody, h, hp.length_eq]
  · rw [toggleLike_of_not_mem h]
    have hin : a ∈ likes ++ [a] := by simp
    simp only []
    rw [toggleLike_of_mem hin]
    have he : (likes ++ [a]).erase a = likes := by
      rw [List.erase_append_right _ h]
      simp
    have hne : ¬ ((List.indexOf a (likes ++ [a]) : Int) = -1) := by omega
    refine ⟨by rw [he], by rw [he], ?_⟩
    simp [likeBody, h, he, hne]

/-- C1: a post with likes [1], toggled twice by user 1, ends with one like and
the second answer says `isLiked = true`; a post with likes [2, 2], toggled
twice by user 2, ends with no like. -/
theorem like_twice_counterexample :
    (findById sampleStore 11 = some samplePost ∧ samplePost.likes = [1] ∧
      (putPostLike 1 (.oid 11) (putPostLike 1 (.oid 11) sampleStore).2).1 = ⟨200, .likeState 1 true⟩) ∧
    (findById sampleStore 12 = some otherPost ∧ otherPost.likes = [2, 2] ∧
      (putPostLike 2 (.oid 12) (putPostLike 2 (.oid 12) sampleStore).2).1 = ⟨200, .likeState 0 false⟩) := by
  decide

/-- C1 (amended): on an existing target (post, comment or reply) in whose likes
`actor` occurs at most once, two like-toggles in a row by `actor` leave the
target with the users who liked it before, hence the original like count, and
the second answer is 200 with that count and `isLiked` true exactly when
`actor` had liked the target before. -/
theorem like_toggle_twice_restores (actor postId commentId replyId : ObjectId)
    (s : Store) (P : CommunityPost) (hP : findById s postId = some P) :
    (P.likes.count actor ≤ 1 →
      ∃ likes,
        findById (putPostLike actor (.oid postId) (putPostLike actor (.oid postId) s).2).2 postId =
          some { P with likes := likes } ∧
        RestoresLikes actor P.likes likes
          (putPostLike actor (.oid postId) (putPostLike actor (.oid postId) s).2).1) ∧
    (∀ C, commentById P.comments commentId = some C → C.likes.count actor ≤ 1 →
      ∃ likes,
        (findById (putCommentLike actor (.oid postId) (.oid commentId)
            (putCommentLike actor (.oid postId) (.oid commentId) s).2).2 postId).bind
            (fun p => commentById p.comments commentId) = some { C with likes := likes } ∧
        RestoresLikes actor C.likes likes
          (putCommentLike actor (.oid postId) (.oid commentId)
            (putCommentLike actor (.oid postId) (.oid commentId) s).2).1) ∧
    (∀ C R, commentById P.comments commentId = some C →
      replyById C.replies replyId = some R → R.likes.count actor ≤ 1 →
      ∃ likes,
        ((findById (putReplyLike actor (.oid postId) (.oid commentId) (.oid replyId)
            (putReplyLike actor (.oid postId) (.oid commentId) (.oid replyId) s).2).2 postId).bind
            (fun p => commentById p.comments commentId)).bind
            (fun c => replyById c.replies replyId) = some { R with likes := likes } ∧
        RestoresLikes actor R.likes likes
          (putReplyLike actor (.oid postId) (.oid commentId) (.oid replyId)
            (putReplyLike actor (.oid postId) (.oid commentId) (.oid replyId) s).2).1) := by
  have hPid := findById_id hP
  refine ⟨?_, ?_, ?_⟩
  · intro hc
    have h1 : findById (putPostLike actor (.oid postId) s).2 postId =
        some { P with likes := (toggleLike P.likes actor).1 } := by
      rw [putPostLike_found hP]
      exact findById_save hP _ hPid
    refine ⟨(toggleLike (toggleLike P.likes actor).1 actor).1, ?_, ?_⟩
    · rw [putPostLike_found h1]
      exact findById_save h1 _ hPid
    · rw [putPostLike_found h1]
      exact toggleLike_twice P.likes actor hc
  · intro C hC hc
    have hCid := commentById_id hC
    have h1 : findById (putCommentLike actor (.oid postId) (.oid commentId) s).2 postId =
        some { P with
          comments := setComment { C with likes := (toggleLike C.likes actor).1 } P.comments } := by
      rw [putCommentLike_found hP hC]
      exact findById_save hP _ hPid
    have hC1 : commentById
        (setComment { C with likes := (toggleLike C.likes actor).1 } P.comments) commentId =
        some { C with likes := (toggleLike C.likes actor).1 } :=
      commentById_setComment hC _ hCid
    refine ⟨(toggleLike (toggleLike C.likes actor).1 actor).1, ?_, ?_⟩
    · rw [putCommentLike_found h1 hC1]
      simp only []
      rw [findById_save h1]
      · exact commentById_setComment hC1 _ hCid
      · exact hPid
    · rw [putCommentLike_found h1 hC1]
      exact toggleLike_twice C.likes actor hc
  · intro C R hC hR hc
    have hCid := commentById_id hC
    have hRid := replyById_id hR
    have h1 : findById (putReplyLike actor (.oid postId) (.oid commentId) (.oid replyId) s).2 postId =
        some { P with
          comments := setComment { C with
            replies := setReply { R with likes := (toggleLike R.likes actor).1 } C.replies }
              P.comments } := by
      rw [putReplyLike_found hP hC hR]
      exact findById_save hP _ hPid
    have hC1 : commentById
        (setComment { C with
            replies := setReply { R with likes := (toggleLike R.likes actor).1 } C.replies }
          P.comments) commentId =
        some { C with
          replies := setReply { R with likes := (toggleLike R.likes actor).1 } C.replies } :=
      commentById_setComment hC _ hCid
    have hR1 : replyById
        (setReply { R with likes := (toggleLike R.likes actor).1 } C.replies) replyId =
        some { R with likes := (toggleLike R.likes actor).1 } :=
      replyById_setReply hR _ hRid
    refine ⟨(toggleLike (toggleLike R.likes actor).1 actor).1, ?_, ?_⟩
    · rw [putReplyLike_found h1 hC1 hR1]
      simp only []
      rw [findById_save h1]
      · simp only [Option.some_bind]
        rw [commentById_setComment hC1]
        · exact replyById_setReply hR1 _ hRid
        · exact hCid
      · exact hPid
    · rw [putReplyLike_found h1 hC1 hR1]
      exact toggleLike_twice R.likes actor hc

theorem like_toggle_twice_restores_witness :
    findById sampleStore 11 = some samplePost ∧
    (∃ likes,
      findById (putPostLike 1 (.oid 11) (putPostLike 1 (.oid 11) sampleStore).2).2 11 =
        some { samplePost with likes := likes } ∧
      RestoresLikes 1 samplePost.likes likes
        (putPostLike 1 (.oid 11) (putPostLike 1 (.oid 11) sampleStore).2).1) ∧
    (∃ likes,
      (findById (putCommentLike 2 (.oid 11) (.oid 21) (putCommentLike 2 (.oid 11) (.oid 21) sampleStore).2).2 11).bind
          (fun p => commentById p.comments 21) = some { sampleComment with likes := likes } ∧
      RestoresLikes 2 sampleComment.likes likes
        (putCommentLike 2 (.oid 11) (.oid 21) (putCommentLike 2 (.oid 11) (.oid 21) sampleStore).2).1) ∧
    (∃ likes,
      ((findById (putReplyLike 2 (.oid 11) (.oid 21) (.oid 31) (putReplyLike 2 (.oid 11) (.oid 21) (.oid 31) sampleStore).2).2 11).bind
          (fun p => commentById p.comments 21)).bind
          (fun c => replyById c.replies 31) = some { sampleReply with likes := likes } ∧
      RestoresLikes 2 sampleReply.likes likes
        (putReplyLike 2 (.oid 11) (.oid 21) (.oid 31) (putReplyLike 2 (.oid 11) (.oid 21) (.oid 31) sampleStore).2).1) :=
  ⟨by decide,
    (like_toggle_twice_restores 1 11 21 31 sampleStore samplePost (by decide)).1 (by decide),
    (like_toggle_twice_restores 2 11 21 31 sampleStore samplePost (by decide)).2.1
      sampleComment (by decide) (by decide),
    (like_toggle_twice_restores 2 11 21 31 sampleStore samplePost (by decide)).2.2
      sampleComment sampleReply (by decide) (by decide) (by decide)⟩

/-! ## Lemmas: what the comment and reply handlers do on success -/

theorem putComment_ok {s : Store} {postId commentId : ObjectId} {P : CommunityPost}
    {C : Comment} (hP : findById s postId = some P)
    (hC : commentById P.comments commentId = some C) (env : Env) (text : String) :
    putComment env C.userId (.oid postId) (.oid commentId) text s =
      (⟨200, .comment { C with text := text, updatedAt := env.now }⟩,
        save s { P with
          comments := setComment { C with text := text, updatedAt := env.now } P.comments }) := by
  have hPid := findById_id hP
  have hCid := commentById_id hC
  simp only [castObjectId, Option.some_bind, putComment, hP, hC, ne_eq, not_true_eq_false, if_false]
  rw [findById_save hP]
  · simp only []
    rw [commentById_setComment hC]
    exact hCid
  · exact hPid

theorem deleteComment_ok {s : Store} {postId commentId : ObjectId} {P : CommunityPost}
    {C : Comment} (hP : findById s postId = some P)
    (hC : commentById P.comments commentId = some C) :
    deleteComment C.userId (.oid postId) (.oid commentId) s =
      (⟨200, .message "Comment deleted successfully"⟩,
        save s { P with comments := pullComment P.comments commentId }) := by
  simp only [castObjectId, Option.some_bind, deleteComment, hP, hC, ne_eq, not_true_eq_false, if_false]

theorem putReply_ok {s : Store} {postId commentId replyId : ObjectId} {P : CommunityPost}
    {C : Comment} {R : Reply} (hP : findById s postId = some P)
    (hC : commentById P.comments commentId = some C)
    (hR : replyById C.replies replyId = some R) (env : Env) (text : String) :
    putReply env R.userId (.oid postId) (.oid commentId) (.oid replyId) text s =
      (⟨200, .reply { R with text := text, updatedAt := env.now }⟩,
        save s { P with
          comments := setComment { C with
            replies := setReply { R with text := text, updatedAt := env.now } C.replies }
              P.comments }) := by
  have hPid := findById_id hP
  have hCid := commentById_id hC
  have hRid := replyById_id hR
  simp only [castObjectId, Option.some_bind, putReply, hP, hC, hR, ne_eq, not_true_eq_false, if_false]
  rw [findById_save hP]
  · simp only [Option.some_bind]
    rw [commentById_setComment hC]
    · simp only []
      rw [replyById_setReply hR]
      exact hRid
    · exact hCid
  · exact hPid

theorem deleteReply_ok {s : Store} {postId commentId replyId : ObjectId} {P : CommunityPost}
    {C : Comment} {R : Reply} (hP : findById s postId = some P)
    (hC : commentById P.comments commentId = some C)
    (hR : replyById C.replies replyId = some R) :
    deleteReply R.userId (.oid postId) (.oid commentId) (.oid replyId) s =
      (⟨200, .message "Reply deleted successfully"⟩,
        save s { P with
          comments := setComment { C with replies := pullReply C.replies replyId }
            P.comments }) := by
  simp only [castObjectId, Option.some_bind, deleteReply, hP, hC, hR, ne_eq, not_true_eq_false, if_false]

theorem postComment_ok {s : Store} {id : ObjectId} {P : CommunityPost}
    (hP : findById s id = some P) (env : Env) (actor : ObjectId) (text : String) :
    postComment env actor (.oid id) text s =
      (⟨201, .comment (castComment env actor text)⟩,
        save s { P with comments := P.comments ++ [castComment env actor text] }) := by
  have hPid := findById_id hP
  simp only [castObjectId, Option.some_bind, postComment, hP, push]
  rw [findById_save hP]
  · simp
  · exact hPid

theorem postReply_ok {s : Store} {postId commentId : ObjectId} {P : CommunityPost}
    {C : Comment} (hP : findById s postId = some P)
    (hC : commentById P.comments commentId = some C) (env : Env) (actor : ObjectId)
    (text : String) :
    postReply env actor (.oid postId) (.oid commentId) text s =
      (⟨201, .reply (castReply env actor text)⟩,
        save s { P with
          comments := setComment { C with replies := C.replies ++ [castReply env actor text] }
            P.comments }) := by
  have hPid := findById_id hP
  have hCid := commentById_id hC
  simp only [castObjectId, Option.some_bind, postReply, hP, hC, push]
  rw [findById_save hP]
  · simp only [Option.some_bind]
    rw [commentById_setComment hC]
    · simp
    · exact hCid
  · exact hPid

/-! ## Author gate of the comment and reply handlers -/

theorem authorGated_cast (raw : String) (actor : ObjectId) (s : Store) :
    AuthorGated (.malformed raw) none actor s (castError, s) := by
  simp [AuthorGated, castError, castObjectId]

theorem authorGated_none (pid actor : ObjectId) (s : Store) (m : Body) :
    AuthorGated (.oid pid) none actor s (⟨404, m⟩, s) := by
  simp [AuthorGated, castObjectId]

theorem authorGated_other (pid : ObjectId) {a actor : ObjectId} (h : a ≠ actor) (s : Store)
    (m : Body) : AuthorGated (.oid pid) (some a) actor s (⟨403, m⟩, s) := by
  simp [AuthorGated, castObjectId, h]

theorem authorGated_self (pid actor : ObjectId) (s s' : Store) (m : Body) :
    AuthorGated (.oid pid) (some actor) actor s (⟨200, m⟩, s') := by
  simp [AuthorGated, castObjectId]

/-- C3: update-comment on a post id that does not cast to an ObjectId answers 500,
not 404, though no post, comment or reply is found under that id; so do
delete-comment, update-reply and delete-reply. -/
theorem comment_reply_gate_counterexample :
    resolveComment sampleStore (.malformed "notanid") (.oid 21) = none ∧
    resolveReply sampleStore (.malformed "notanid") (.oid 21) (.oid 31) = none ∧
    putComment sampleEnv 2 (.malformed "notanid") (.oid 21) "edited" sampleStore =
      (⟨500, .error "Cast to ObjectId failed"⟩, sampleStore) ∧
    deleteComment 2 (.malformed "notanid") (.oid 21) sampleStore =
      (⟨500, .error "Cast to ObjectId failed"⟩, sampleStore) ∧
    putReply sampleEnv 1 (.malformed "notanid") (.oid 21) (.oid 31) "edited" sampleStore =
      (⟨500, .error "Cast to ObjectId failed"⟩, sampleStore) ∧
    deleteReply 1 (.malformed "notanid") (.oid 21) (.oid 31) sampleStore =
      (⟨500, .error "Cast to ObjectId failed"⟩, sampleStore) := by
  decide

/-- C3 (amended): each of update-comment, delete-comment, update-reply and
delete-reply answers 500 exactly when the post id does not cast to an
ObjectId; 404 exactly when the post id casts and the post, the comment in it
or (for a reply) the reply in that comment does not exist, a comment or reply
id that does not cast counting as not existing; 403 exactly when the target
exists and the actor is not its author; and 200 exactly when the target
exists and the actor is its author.  On 500, 404 and 403 the store is
unchanged. -/
theorem comment_reply_author_gate (env : Env) (actor : ObjectId)
    (postId commentId replyId : IdParam) (text : String) (s : Store) :
    AuthorGated postId ((resolveComment s postId commentId).map (fun c => c.userId)) actor s
      (putComment env actor postId commentId text s) ∧
    AuthorGated postId ((resolveComment s postId commentId).map (fun c => c.userId)) actor s
      (deleteComment actor postId commentId s) ∧
    AuthorGated postId ((resolveReply s postId commentId replyId).map (fun r => r.userId))
      actor s (putReply env actor postId commentId replyId text s) ∧
    AuthorGated postId ((resolveReply s postId commentId replyId).map (fun r => r.userId))
      actor s (deleteReply actor postId commentId replyId s) := by
  cases postId with
  | malformed raw =>
    simp only [resolveReply, resolveComment, putComment, deleteComment, putReply, deleteReply,
      castObjectId, Option.none_bind, Option.map_none']
    exact ⟨authorGated_cast _ _ _, authorGated_cast _ _ _, authorGated_cast _ _ _,
      authorGated_cast _ _ _⟩
  | oid pid =>
    cases hP : findById s pid with
    | none =>
      simp only [resolveReply, resolveComment, putComment, deleteComment, putReply, deleteReply,
        castObjectId, hP, Option.some_bind, Option.none_bind, Option.map_none']
      exact ⟨authorGated_none _ _ _ _, authorGated_none _ _ _ _, authorGated_none _ _ _ _,
        authorGated_none _ _ _ _⟩
    | some P =>
      cases commentId with
      | malformed craw =>
        simp only [resolveReply, resolveComment, putComment, deleteComment, putReply,
          deleteReply, castObjectId, hP, Option.some_bind, Option.none_bind, Option.map_none']
        exact ⟨authorGated_none _ _ _ _, authorGated_none _ _ _ _, authorGated_none _ _ _ _,
          authorGated_none _ _ _ _⟩
      | oid cid =>
        cases hC : commentById P.comments cid with
        | none =>
          simp only [resolveReply, resolveComment, putComment, deleteComment, putReply,
            deleteReply, castObjectId, hP, hC, Option.some_bind, Option.none_bind,
            Option.map_none']
          exact ⟨authorGated_none _ _ _ _, authorGated_none _ _ _ _,
            authorGated_none _ _ _ _, authorGated_none _ _ _ _⟩
        | some C =>
          have hcm : AuthorGated (.oid pid) (some C.userId) actor s
                (putComment env actor (.oid pid) (.oid cid) text s) ∧
              AuthorGated (.oid pid) (some C.userId) actor s
                (deleteComment actor (.oid pid) (.oid cid) s) := by
            by_cases hA : C.userId = actor
            · subst hA
              rw [putComment_ok hP hC, deleteComment_ok hP hC]
              exact ⟨authorGated_self _ _ _ _ _, authorGated_self _ _ _ _ _⟩
            · simp only [putComment, deleteComment, castObjectId, Option.some_bind, hP, hC,
                ne_eq, hA, not_false_eq_true, if_true]
              exact ⟨authorGated_other _ hA _ _, authorGated_other _ hA _ _⟩
          refine ⟨by simpa [resolveComment, castObjectId, hP, hC] using hcm.1,
            by simpa [resolveComment, castObjectId, hP, hC] using hcm.2, ?_⟩
          cases replyId with
          | malformed rraw =>
            simp only [resolveReply, resolveComment, putReply, deleteReply, castObjectId,
              hP, hC, Option.some_bind, Option.none_bind, Option.map_none']
            exact ⟨authorGated_none _ _ _ _, authorGated_none _ _ _ _⟩
          | oid rid =>
            cases hR : replyById C.replies rid with
            | none =>
              simp only [resolveReply, resolveComment, putReply, deleteReply, castObjectId,
                hP, hC, hR, Option.some_bind, Option.map_none']
              exact ⟨authorGated_none _ _ _ _, authorGated_none _ _ _ _⟩
            | some R =>
              simp only [resolveReply, resolveComment, castObjectId, hP, hC, hR,
                Option.some_bind, Option.map_some']
              by_cases hA : R.userId = actor
              · subst hA
                rw [putReply_ok hP hC hR, deleteReply_ok hP hC hR]
                exact ⟨authorGated_self _ _ _ _ _, authorGated_self _ _ _ _ _⟩
              · simp only [putReply, deleteReply, castObjectId, Option.some_bind, hP, hC, hR,
                  ne_eq, hA, not_false_eq_true, if_true]
                exact ⟨authorGated_other _ hA _ _, authorGated_other _ hA _ _⟩

/-! ## Deleting a comment -/

theorem commentById_pullComment (cs : List Comment) (id : ObjectId) :
    commentById (pullComment cs id) id = none := by
  simp [commentById, pullComment, List.find?_eq_none]

theorem comments_split_of_nodup {cs : List Comment} {C : Comment} (hC : C ∈ cs)
    (hnd : (cs.map (fun c => c._id)).Nodup) :
    ∃ pre suf, cs = pre ++ C :: suf ∧ (∀ x ∈ pre, x._id ≠ C._id) ∧
      (∀ x ∈ suf, x._id ≠ C._id) := by
  obtain ⟨pre, suf, rfl⟩ := List.append_of_mem hC
  refine ⟨pre, suf, rfl, ?_, ?_⟩
  · intro x hx he
    simp only [List.map_append, List.map_cons] at hnd
    have := (List.nodup_append.1 hnd).2.2
    exact this (List.mem_map_of_mem _ hx) (by simp [he])
  · intro x hx he
    simp only [List.map_append, List.map_cons] at hnd
    have h2 := (List.nodup_cons.1 (List.nodup_append.1 hnd).2.1).1
    exact h2 (by rw [← he]; exact List.mem_map_of_mem _ hx)

theorem commentById_split {pre suf : List Comment} {C : Comment}
    (hpre : ∀ x ∈ pre, x._id ≠ C._id) :
    commentById (pre ++ C :: suf) C._id = some C := by
  induction pre with
  | nil => simp [commentById]
  | cons q qs ih =>
    have hq : q._id ≠ C._id := hpre q (by simp)
    have := ih (fun x hx => hpre x (List.mem_cons_of_mem _ hx))
    simpa [commentById, List.find?_cons, hq] using this

theorem pullComment_split {pre suf : List Comment} {C : Comment}
    (hpre : ∀ x ∈ pre, x._id ≠ C._id) (hsuf : ∀ x ∈ suf, x._id ≠ C._id) :
    pullComment (pre ++ C :: suf) C._id = pre ++ suf := by
  have h1 : pre.filter (fun c => c._id ≠ C._id) = pre :=
    List.filter_eq_self.2 (fun x hx => by simpa using hpre x hx)
  have h2 : suf.filter (fun c => c._id ≠ C._id) = suf :=
    List.filter_eq_self.2 (fun x hx => by simpa using hsuf x hx)
  simp only [pullComment, List.filter_append, h1]
  rw [List.filter_cons_of_neg (by simp), h2]

/-- C4: in a post whose comments have pairwise distinct ids, delete-comment by
the author of a comment `C` answers 200 and stores the comment list with
exactly `C` (and so the replies embedded in it) taken out, the other comments
unchanged and in order; after that, add-reply, like-reply, update-reply and
delete-reply addressed to that post and the id of `C` answer 404 for every
actor, and they go on doing so in every later store in which no comment with
that id is found under that post. -/
theorem delete_comment_removes_subtree (s : Store) (postId : ObjectId) (P : CommunityPost)
    (C : Comment) (hP : findById s postId = some P) (hC : C ∈ P.comments)
    (hnd : (P.comments.map (fun c => c._id)).Nodup) :
    (deleteComment C.userId (.oid postId) (.oid C._id) s).1.status = 200 ∧
    (∃ pre suf, P.comments = pre ++ C :: suf ∧
      findById (deleteComment C.userId (.oid postId) (.oid C._id) s).2 postId =
        some { P with comments := pre ++ suf }) ∧
    (∀ (env : Env) (actor : ObjectId) (replyId : IdParam) (text : String),
      (postReply env actor (.oid postId) (.oid C._id) text
          (deleteComment C.userId (.oid postId) (.oid C._id) s).2).1 = ⟨404, .message "Comment not found"⟩ ∧
      (putReplyLike actor (.oid postId) (.oid C._id) replyId
          (deleteComment C.userId (.oid postId) (.oid C._id) s).2).1 = ⟨404, .message "Comment not found"⟩ ∧
      (putReply env actor (.oid postId) (.oid C._id) replyId text
          (deleteComment C.userId (.oid postId) (.oid C._id) s).2).1 = ⟨404, .message "Comment not found"⟩ ∧
      (deleteReply actor (.oid postId) (.oid C._id) replyId
          (deleteComment C.userId (.oid postId) (.oid C._id) s).2).1 = ⟨404, .message "Comment not found"⟩) ∧
    resolveComment (deleteComment C.userId (.oid postId) (.oid C._id) s).2 (.oid postId)
        (.oid C._id) = none ∧
    (∀ (s' : Store), resolveComment s' (.oid postId) (.oid C._id) = none →
      ∀ (env : Env) (actor : ObjectId) (replyId : IdParam) (text : String),
        (postReply env actor (.oid postId) (.oid C._id) text s').1.status = 404 ∧
        (putReplyLike actor (.oid postId) (.oid C._id) replyId s').1.status = 404 ∧
        (putReply env actor (.oid postId) (.oid C._id) replyId text s').1.status = 404 ∧
        (deleteReply actor (.oid postId) (.oid C._id) replyId s').1.status = 404) := by
  have hPid := findById_id hP
  obtain ⟨pre, suf, hsplit, hpre, hsuf⟩ := comments_split_of_nodup hC hnd
  have hCfound : commentById P.comments C._id = some C := by
    rw [hsplit]
    exact commentById_split hpre
  have hdel := deleteComment_ok hP hCfound
  have hafter : findById (deleteComment C.userId (.oid postId) (.oid C._id) s).2 postId =
      some { P with comments := pullComment P.comments C._id } := by
    rw [hdel]
    exact findById_save hP _ hPid
  have hgone : commentById (pullComment P.comments C._id) C._id = none :=
    commentById_pullComment _ _
  refine ⟨by rw [hdel], ⟨pre, suf, hsplit, ?_⟩, ?_, ?_, ?_⟩
  · rw [hafter, hsplit, pullComment_split hpre hsuf]
  · intro env actor replyId text
    simp only [castObjectId, Option.some_bind, postReply, putReplyLike, putReply, deleteReply, hafter, hgone, and_self]
  · simp only [castObjectId, Option.some_bind, resolveComment, hafter, Option.some_bind, hgone]
  · intro s' hs' env actor replyId text
    cases hP' : findById s' postId with
    | none => simp only [castObjectId, Option.some_bind, postReply, putReplyLike, putReply, deleteReply, hP', and_self]
    | some P' =>
      have hnone : commentById P'.comments C._id = none := by
        simpa [castObjectId, Option.some_bind, resolveComment, hP'] using hs'
      simp only [castObjectId, Option.some_bind, postReply, putReplyLike, putReply, deleteReply, hP', hnone, and_self]

theorem delete_comment_removes_subtree_witness :
    findById sampleStore 11 = some samplePost ∧ sampleComment ∈ samplePost.comments ∧
    (samplePost.comments.map (fun c => c._id)).Nodup ∧
    (deleteComment 2 (.oid 11) (.oid 21) sampleStore).1.status = 200 ∧
    (∃ pre suf, samplePost.comments = pre ++ sampleComment :: suf ∧
      findById (deleteComment 2 (.oid 11) (.oid 21) sampleStore).2 11 =
        some { samplePost with comments := pre ++ suf }) ∧
    (∀ (env : Env) (actor : ObjectId) (replyId : IdParam) (text : String),
      (postReply env actor (.oid 11) (.oid 21) text
          (deleteComment 2 (.oid 11) (.oid 21) sampleStore).2).1 = ⟨404, .message "Comment not found"⟩ ∧
      (putReplyLike actor (.oid 11) (.oid 21) replyId
          (deleteComment 2 (.oid 11) (.oid 21) sampleStore).2).1 = ⟨404, .message "Comment not found"⟩ ∧
      (putReply env actor (.oid 11) (.oid 21) replyId text
          (deleteComment 2 (.oid 11) (.oid 21) sampleStore).2).1 = ⟨404, .message "Comment not found"⟩ ∧
      (deleteReply actor (.oid 11) (.oid 21) replyId
          (deleteComment 2 (.oid 11) (.oid 21) sampleStore).2).1 = ⟨404, .message "Comment not found"⟩) ∧
    resolveComment (deleteComment 2 (.oid 11) (.oid 21) sampleStore).2 (.oid 11) (.oid 21) = none ∧
    (∀ (s' : Store), resolveComment s' (.oid 11) (.oid 21) = none →
      ∀ (env : Env) (actor : ObjectId) (replyId : IdParam) (text : String),
        (postReply env actor (.oid 11) (.oid 21) text s').1.status = 404 ∧
        (putReplyLike actor (.oid 11) (.oid 21) replyId s').1.status = 404 ∧
        (putReply env actor (.oid 11) (.oid 21) replyId text s').1.status = 404 ∧
        (deleteReply actor (.oid 11) (.oid 21) replyId s').1.status = 404) :=
  ⟨by decide, by decide, by decide,
    delete_comment_removes_subtree sampleStore 11 samplePost sampleComment
      (by decide) (by decide) (by decide)⟩

/-! ## Lemmas: the post collection -/

theorem findById_split {s : Store} {id : ObjectId} {P : CommunityPost}
    (h : findById s id = some P) :
    ∃ pre suf, s.posts = pre ++ P :: suf ∧ ∀ x ∈ pre, x._id ≠ id := by
  unfold findById at h
  obtain ⟨_, pre, suf, hs, hpre⟩ := List.find?_eq_some.1 h
  exact ⟨pre, suf, hs, fun x hx => by simpa using hpre x hx⟩

theorem replaceDoc_split {pre suf : List CommunityPost} {q P' : CommunityPost}
    (hpre : ∀ x ∈ pre, x._id ≠ P'._id) (hq : q._id = P'._id) :
    replaceDoc P' (pre ++ q :: suf) = pre ++ P' :: suf := by
  induction pre with
  | nil => simp [replaceDoc, hq]
  | cons x xs ih =>
    have hx : x._id ≠ P'._id := hpre x (by simp)
    simp [replaceDoc, hx, ih (fun y hy => hpre y (List.mem_cons_of_mem _ hy))]

theorem eraseP_split {pre suf : List CommunityPost} {q : CommunityPost} {id : ObjectId}
    (hpre : ∀ x ∈ pre, x._id ≠ id) (hq : q._id = id) :
    (pre ++ q :: suf).eraseP (fun p => p._id = id) = pre ++ suf := by
  induction pre with
  | nil => simp [hq]
  | cons x xs ih =>
    have hx : x._id ≠ id := hpre x (by simp)
    simp [List.eraseP_cons, hx, ih (fun y hy => hpre y (List.mem_cons_of_mem _ hy))]

theorem findOne_of_findById {s : Store} {id actor : ObjectId} {P : CommunityPost}
    (h : findById s id = some P) (ho : P.userId = actor) : findOne s id actor = some P := by
  have hid := findById_id h
  obtain ⟨pre, suf, hs, hpre⟩ := findById_split h
  unfold findOne
  rw [hs]
  clear hs h
  induction pre with
  | nil => simp [hid, ho]
  | cons x xs ih =>
    have hx : x._id ≠ id := hpre x (by simp)
    simp only [List.cons_append, List.find?_cons, hx, false_and, decide_False]
    exact ih (fun y hy => hpre y (List.mem_cons_of_mem _ hy))

theorem nodup_ids_split {pre suf : List CommunityPost} {P : CommunityPost}
    (hnd : ((pre ++ P :: suf).map (fun p => p._id)).Nodup) :
    ∀ q ∈ pre ++ suf, q._id ≠ P._id := by
  simp only [List.map_append, List.map_cons] at hnd
  have h := List.nodup_append.1 hnd
  intro q hq he
  rcases List.mem_append.1 hq with hq | hq
  · exact h.2.2 (List.mem_map_of_mem _ hq) (by simp [he])
  · exact (List.nodup_cons.1 h.2.1).1 (by rw [← he]; exact List.mem_map_of_mem _ hq)

theorem findOne_none_of_foreign {s : Store} {id actor : ObjectId} {P : CommunityPost}
    (hnd : (s.posts.map (fun p => p._id)).Nodup)
    (h : findById s id = some P) (ho : P.userId ≠ actor) : findOne s id actor = none := by
  have hid := findById_id h
  obtain ⟨pre, suf, hs, _⟩ := findById_split h
  rw [hs] at hnd
  have hothers := nodup_ids_split hnd
  unfold findOne
  rw [List.find?_eq_none]
  intro x hx
  rw [hs] at hx
  simp only [decide_eq_true_eq, not_and]
  intro hxid
  rcases List.mem_append.1 hx with hx | hx
  · exact absurd (hxid.trans hid.symm) (hothers x (List.mem_append_left _ hx))
  · rcases List.mem_cons.1 hx with hx | hx
    · rw [hx]; exact ho
    · exact absurd (hxid.trans hid.symm) (hothers x (List.mem_append_right _ hx))

theorem findOne_none_of_missing {s : Store} {id actor : ObjectId}
    (h : findById s id = none) : findOne s id actor = none := by
  unfold findById at h
  unfold findOne
  rw [List.find?_eq_none] at h ⊢
  intro x hx
  have := h x hx
  simp only [decide_eq_true_eq] at this
  simp [this]

/-! ## Owner gate of update-post and delete-post -/

/-- C6: update-post and delete-post on a post id that does not cast to an
ObjectId, under which no post is found, answer 500 and not 404 'Post not
found or unauthorized'. -/
theorem post_owner_gate_counterexample :
    castObjectId (.malformed "notanid") = none ∧
    putPost sampleEnv 1 (.malformed "notanid") sampleInput sampleStore =
      (⟨500, .error "Cast to ObjectId failed"⟩, sampleStore) ∧
    deletePost 1 (.malformed "notanid") sampleStore =
      (⟨500, .error "Cast to ObjectId failed"⟩, sampleStore) := by
  decide

/-- C6 (amended): in a store whose posts have pairwise distinct ids, for a post
id that casts to an ObjectId, update-post and delete-post give the same
answer, 404 'Post not found or unauthorized', with the store unchanged, when
the post is missing and when it is owned by someone else.  When the post
exists and the actor owns it, delete answers 200 and the store loses exactly
that post (no post with that id remains, the others are unchanged), and
update answers 200 with the post in which only title, story, media, tags and
updatedAt are new, stored at the place of the old one.  They answer 200 only
then.  For a post id that does not cast to an ObjectId both answer 500 and
the store is unchanged. -/
theorem post_owner_gate (env : Env) (actor id : ObjectId) (body : PostInput) (s : Store)
    (hnd : (s.posts.map (fun p => p._id)).Nodup) :
    (findById s id = none →
      putPost env actor (.oid id) body s = (⟨404, .message "Post not found or unauthorized"⟩, s) ∧
      deletePost actor (.oid id) s = (⟨404, .message "Post not found or unauthorized"⟩, s)) ∧
    (∀ P, findById s id = some P → P.userId ≠ actor →
      putPost env actor (.oid id) body s = (⟨404, .message "Post not found or unauthorized"⟩, s) ∧
      deletePost actor (.oid id) s = (⟨404, .message "Post not found or unauthorized"⟩, s)) ∧
    (∀ P, findById s id = some P → P.userId = actor →
      ∃ pre suf, s.posts = pre ++ P :: suf ∧ (∀ q ∈ pre ++ suf, q._id ≠ id) ∧
        deletePost actor (.oid id) s =
          (⟨200, .message "Post deleted successfully"⟩, { s with posts := pre ++ suf }) ∧
        putPost env actor (.oid id) body s =
          (⟨200, .post { P with
              title := body.title, story := body.story, media := body.media.getD [],
              tags := body.tags.getD [], updatedAt := env.now }⟩,
            { s with posts := pre ++ { P with
              title := body.title, story := body.story, media := body.media.getD [],
              tags := body.tags.getD [], updatedAt := env.now } :: suf })) ∧
    (((putPost env actor (.oid id) body s).1.status = 200 ↔
        ∃ P, findById s id = some P ∧ P.userId = actor) ∧
      ((deletePost actor (.oid id) s).1.status = 200 ↔
        ∃ P, findById s id = some P ∧ P.userId = actor)) ∧
    (∀ raw : String,
      putPost env actor (.malformed raw) body s =
        (⟨500, .error "Cast to ObjectId failed"⟩, s) ∧
      deletePost actor (.malformed raw) s =
        (⟨500, .error "Cast to ObjectId failed"⟩, s)) := by
  have hmiss : findById s id = none →
      putPost env actor (.oid id) body s = (⟨404, .message "Post not found or unauthorized"⟩, s) ∧
      deletePost actor (.oid id) s = (⟨404, .message "Post not found or unauthorized"⟩, s) := by
    intro h
    simp only [castObjectId, Option.some_bind, putPost, deletePost, findOne_none_of_missing h, and_self]
  have hforeign : ∀ P, findById s id = some P → P.userId ≠ actor →
      putPost env actor (.oid id) body s = (⟨404, .message "Post not found or unauthorized"⟩, s) ∧
      deletePost actor (.oid id) s = (⟨404, .message "Post not found or unauthorized"⟩, s) := by
    intro P h ho
    simp only [castObjectId, Option.some_bind, putPost, deletePost, findOne_none_of_foreign hnd h ho, and_self]
  have hown : ∀ P, findById s id = some P → P.userId = actor →
      ∃ pre suf, s.posts = pre ++ P :: suf ∧ (∀ q ∈ pre ++ suf, q._id ≠ id) ∧
        deletePost actor (.oid id) s =
          (⟨200, .message "Post deleted successfully"⟩, { s with posts := pre ++ suf }) ∧
        putPost env actor (.oid id) body s =
          (⟨200, .post { P with
              title := body.title, story := body.story, media := body.media.getD [],
              tags := body.tags.getD [], updatedAt := env.now }⟩,
            { s with posts := pre ++ { P with
              title := body.title, story := body.story, media := body.media.getD [],
              tags := body.tags.getD [], updatedAt := env.now } :: suf }) := by
    intro P h ho
    have hid := findById_id h
    obtain ⟨pre, suf, hs, hpre⟩ := findById_split h
    have hothers : ∀ q ∈ pre ++ suf, q._id ≠ id := by
      rw [hs] at hnd
      rw [← hid]
      exact nodup_ids_split hnd
    refine ⟨pre, suf, hs, hothers, ?_, ?_⟩
    · simp only [castObjectId, Option.some_bind, deletePost, findOne_of_findById h ho, findByIdAndDelete]
      rw [hs, eraseP_split hpre hid]
    · simp only [castObjectId, Option.some_bind, putPost, findOne_of_findById h ho]
      have h' : findById s P._id = some P := by rw [hid]; exact h
      rw [findById_save h']
      · simp only [save]
        rw [hs, replaceDoc_split (q := P)]
        · intro x hx
          show x._id ≠ P._id
          rw [hid]
          exact hpre x hx
        · rfl
      · rfl
  refine ⟨hmiss, hforeign, hown, ⟨?_, ?_⟩, fun raw => ⟨rfl, rfl⟩⟩
  · constructor
    · intro hst
      cases h : findById s id with
      | none => rw [(hmiss h).1] at hst; simp at hst
      | some P =>
        by_cases ho : P.userId = actor
        · exact ⟨P, rfl, ho⟩
        · rw [(hforeign P h ho).1] at hst; simp at hst
    · rintro ⟨P, h, ho⟩
      obtain ⟨_, _, _, _, _, hput⟩ := hown P h ho
      rw [hput]
  · constructor
    · intro hst
      cases h : findById s id with
      | none => rw [(hmiss h).2] at hst; simp at hst
      | some P =>
        by_cases ho : P.userId = actor
        · exact ⟨P, rfl, ho⟩
        · rw [(hforeign P h ho).2] at hst; simp at hst
    · rintro ⟨P, h, ho⟩
      obtain ⟨_, _, _, _, hdel, _⟩ := hown P h ho
      rw [hdel]

theorem post_owner_gate_witness :
    (sampleStore.posts.map (fun p => p._id)).Nodup ∧
    (putPost sampleEnv 1 (.oid 77) sampleInput sampleStore =
        (⟨404, .message "Post not found or unauthorized"⟩, sampleStore) ∧
      deletePost 1 (.oid 77) sampleStore =
        (⟨404, .message "Post not found or unauthorized"⟩, sampleStore)) ∧
    (putPost sampleEnv 2 (.oid 11) sampleInput sampleStore =
        (⟨404, .message "Post not found or unauthorized"⟩, sampleStore) ∧
      deletePost 2 (.oid 11) sampleStore =
        (⟨404, .message "Post not found or unauthorized"⟩, sampleStore)) ∧
    (∃ pre suf, sampleStore.posts = pre ++ samplePost :: suf ∧
      (∀ q ∈ pre ++ suf, q._id ≠ 11) ∧
      deletePost 1 (.oid 11) sampleStore =
        (⟨200, .message "Post deleted successfully"⟩, { sampleStore with posts := pre ++ suf }) ∧
      putPost sampleEnv 1 (.oid 11) sampleInput sampleStore =
        (⟨200, .post { samplePost with
            title := sampleInput.title, story := sampleInput.story,
            media := sampleInput.media.getD [], tags := sampleInput.tags.getD [],
            updatedAt := sampleEnv.now }⟩,
          { sampleStore with posts := pre ++ { samplePost with
            title := sampleInput.title, story := sampleInput.story,
            media := sampleInput.media.getD [], tags := sampleInput.tags.getD [],
            updatedAt := sampleEnv.now } :: suf })) :=
  ⟨by decide,
    (post_owner_gate sampleEnv 1 77 sampleInput sampleStore (by decide)).1 (by decide),
    (post_owner_gate sampleEnv 2 11 sampleInput sampleStore (by decide)).2.1 samplePost
      (by decide) (by decide),
    (post_owner_gate sampleEnv 1 11 sampleInput sampleStore (by decide)).2.2.1 samplePost
      (by decide) (by decide)⟩

/-! ## Creating a post -/

theorem findAdventure_none {s : Store} {adv actor : ObjectId}
    (h : ∀ a ∈ s.adventures, a._id = adv → a.userId ≠ actor) :
    findAdventure s adv actor = none := by
  unfold findAdventure
  rw [List.find?_eq_none]
  intro a ha
  simp only [decide_eq_true_eq, not_and]
  exact h a ha

theorem findAdventure_isSome {s : Store} {adv actor : ObjectId}
    (h : ∃ a ∈ s.adventures, a._id = adv ∧ a.userId = actor) :
    ∃ a, findAdventure s adv actor = some a := by
  unfold findAdventure
  cases hf : s.adventures.find? (fun a => a._id = adv ∧ a.userId = actor) with
  | some a => exact ⟨a, rfl⟩
  | none =>
    rw [List.find?_eq_none] at hf
    obtain ⟨a, ha, h1, h2⟩ := h
    have := hf a ha
    simp [h1, h2] at this

theorem findById_insert_fresh (s : Store) (p : CommunityPost)
    (hfresh : ∀ q ∈ s.posts, q._id ≠ p._id) : findById (insert s p) p._id = some p := by
  unfold findById insert
  simp only [List.find?_append]
  have : s.posts.find? (fun q => q._id = p._id) = none := by
    rw [List.find?_eq_none]
    intro q hq
    simpa using hfresh q hq
  simp [this]

theorem createPost_spec (env : Env) (actor : ObjectId) (body : PostInput)
    (adv : Option ObjectId) (s : Store) :
    (createPost env actor body adv s).1.status = 201 ∧
    (createPost env actor body adv s).2 =
      { s with posts := s.posts ++ [newCommunityPost env actor body.title body.story adv
        (body.media.getD []) (body.tags.getD [])] } ∧
    ((∀ q ∈ s.posts, q._id ≠ env.newId) →
      (createPost env actor body adv s).1.body =
        .post (newCommunityPost env actor body.title body.story adv
          (body.media.getD []) (body.tags.getD []))) := by
  refine ⟨?_, ?_, ?_⟩
  · simp only [createPost]
    split <;> rfl
  · simp only [createPost]
    split <;> rfl
  · intro hfresh
    simp only [createPost]
    rw [findById_insert_fresh s _ hfresh]

/-- C5: a create-post request whose adventureId does not cast to an ObjectId,
so that no stored Adventure has that id, is answered 500 and not 404. -/
theorem create_post_gate_counterexample :
    castObjectId (.malformed "notanid") = none ∧
    postPost sampleEnv 1 { sampleInput with adventureId := some (.malformed "notanid") }
      sampleStore = (⟨500, .error "Cast to ObjectId failed"⟩, sampleStore) := by
  decide

/-- C5 (amended): a create-post request that names, by an adventureId that
casts to an ObjectId, an adventure which no stored Adventure with that id
owned by the actor matches (none with that id, or only ones owned by others)
is answered 404 and leaves the store as it was.  When no adventure is named,
or a stored Adventure with that id is owned by the actor, the answer is 201
and the store gains exactly one post, owned by the actor, with the request's
fields and no likes or comments; that post is the response when the generated
id is new to the store.  A request whose adventureId does not cast to an
ObjectId is answered 500 and leaves the store as it was. -/
theorem create_post_adventure_gate (env : Env) (actor : ObjectId) (body : PostInput)
    (s : Store) :
    (∀ adv : ObjectId, body.adventureId = some (.oid adv) →
      (∀ a ∈ s.adventures, a._id = adv → a.userId ≠ actor) →
      postPost env actor body s = (⟨404, .message "Adventure not found"⟩, s)) ∧
    ((body.adventureId = none ∨
        ∃ adv : ObjectId, body.adventureId = some (.oid adv) ∧
          ∃ a ∈ s.adventures, a._id = adv ∧ a.userId = actor) →
      (postPost env actor body s).1.status = 201 ∧
      (∃ post : CommunityPost,
        (postPost env actor body s).2 = { s with posts := s.posts ++ [post] } ∧
        post.userId = actor ∧ post.title = body.title ∧ post.story = body.story ∧
        post.adventureId = body.adventureId.bind castObjectId ∧
        post.media = body.media.getD [] ∧
        post.tags = body.tags.getD [] ∧ post.likes = [] ∧ post.comments = [] ∧
        post._id = env.newId ∧
        ((∀ q ∈ s.posts, q._id ≠ env.newId) →
          (postPost env actor body s).1.body = .post post))) ∧
    (∀ raw : String, body.adventureId = some (.malformed raw) →
      postPost env actor body s = (⟨500, .error "Cast to ObjectId failed"⟩, s)) := by
  refine ⟨?_, ?_, ?_⟩
  · intro adv hadv hno
    simp only [postPost, hadv, castObjectId, findAdventure_none hno]
  · intro hok
    have hproceed : postPost env actor body s =
        createPost env actor body (body.adventureId.bind castObjectId) s := by
      rcases hok with hnone | ⟨adv, hadv, hex⟩
      · simp only [postPost, hnone, Option.none_bind]
      · obtain ⟨a, ha⟩ := findAdventure_isSome hex
        simp only [postPost, hadv, castObjectId, ha, Option.some_bind]
    obtain ⟨h1, h2, h3⟩ := createPost_spec env actor body
      (body.adventureId.bind castObjectId) s
    rw [hproceed]
    exact ⟨h1, _, h2, rfl, rfl, rfl, rfl, rfl, rfl, rfl, rfl, rfl, h3⟩
  · intro raw hraw
    simp only [postPost, hraw, castObjectId, castError]

theorem create_post_adventure_gate_witness :
    postPost sampleEnv 1 sampleInput sampleStore =
      (⟨404, .message "Adventure not found"⟩, sampleStore) ∧
    ((postPost sampleEnv 2 sampleInput sampleStore).1.status = 201 ∧
      (∃ post : CommunityPost,
        (postPost sampleEnv 2 sampleInput sampleStore).2 =
          { sampleStore with posts := sampleStore.posts ++ [post] } ∧
        post.userId = 2 ∧ post.title = sampleInput.title ∧ post.story = sampleInput.story ∧
        post.adventureId = sampleInput.adventureId.bind castObjectId ∧
        post.media = sampleInput.media.getD [] ∧
        post.tags = sampleInput.tags.getD [] ∧ post.likes = [] ∧ post.comments = [] ∧
        post._id = sampleEnv.newId ∧
        ((∀ q ∈ sampleStore.posts, q._id ≠ sampleEnv.newId) →
          (postPost sampleEnv 2 sampleInput sampleStore).1.body = .post post))) ∧
    postPost sampleEnv 1 { sampleInput with adventureId := some (.malformed "notanid") }
      sampleStore = (⟨500, .error "Cast to ObjectId failed"⟩, sampleStore) :=
  ⟨(create_post_adventure_gate sampleEnv 1 sampleInput sampleStore).1 41 (by decide)
      (by decide),
    (create_post_adventure_gate sampleEnv 2 sampleInput sampleStore).2.1
      (Or.inr ⟨41, by decide, by decide⟩),
    (create_post_adventure_gate sampleEnv 1
      { sampleInput with adventureId := some (.malformed "notanid") } sampleStore).2.2
      "notanid" rfl⟩

/-! ## Lemmas: writing to a located subdocument -/

theorem setComment_split {pre suf : List Comment} {q C' : Comment}
    (hpre : ∀ x ∈ pre, x._id ≠ C'._id) (hq : q._id = C'._id) :
    setComment C' (pre ++ q :: suf) = pre ++ C' :: suf := by
  induction pre with
  | nil => simp [setComment, hq]
  | cons x xs ih =>
    have hx : x._id ≠ C'._id := hpre x (by simp)
    simp [setComment, hx, ih (fun y hy => hpre y (List.mem_cons_of_mem _ hy))]

theorem setReply_split {pre suf : List Reply} {q R' : Reply}
    (hpre : ∀ x ∈ pre, x._id ≠ R'._id) (hq : q._id = R'._id) :
    setReply R' (pre ++ q :: suf) = pre ++ R' :: suf := by
  induction pre with
  | nil => simp [setReply, hq]
  | cons x xs ih =>
    have hx : x._id ≠ R'._id := hpre x (by simp)
    simp [setReply, hx, ih (fun y hy => hpre y (List.mem_cons_of_mem _ hy))]

theorem replyById_split {pre suf : List Reply} {R : Reply}
    (hpre : ∀ x ∈ pre, x._id ≠ R._id) :
    replyById (pre ++ R :: suf) R._id = some R := by
  induction pre with
  | nil => simp [replyById]
  | cons q qs ih =>
    have hq : q._id ≠ R._id := hpre q (by simp)
    have := ih (fun x hx => hpre x (List.mem_cons_of_mem _ hx))
    simpa [replyById, List.find?_cons, hq] using this

theorem save_split {s : Store} {id : ObjectId} {P : CommunityPost}
    (h : findById s id = some P) (P' : CommunityPost) (hid : P'._id = id) :
    ∃ spre ssuf, s.posts = spre ++ P :: ssuf ∧
      save s P' = { s with posts := spre ++ P' :: ssuf } := by
  have hPid := findById_id h
  obtain ⟨spre, ssuf, hs, hpre⟩ := findById_split h
  refine ⟨spre, ssuf, hs, ?_⟩
  simp only [save]
  rw [hs, replaceDoc_split (q := P)]
  · intro x hx
    rw [hid]
    exact hpre x hx
  · rw [hid, hPid]

/-! ## Updating a comment or a reply -/

/-- C7: a successful update-comment by the author of the comment `N` of a post
stores the post with `N` replaced, at its place, by `N` with the new text and
`updatedAt` (id, author, likes, replies and createdAt as before), every
other comment and field of the post, every other post and the adventures
unchanged; the answer is the updated comment.  Likewise update-reply for a
reply `R` of a comment `C`: only the text and `updatedAt` of `R` are new.
`N`, `C` and `R` are the first of their id in their list, as they are when ids
are unique. -/
theorem update_comment_reply_frame (env : Env) (postId : ObjectId) (text : String)
    (s : Store) (P : CommunityPost) (hP : findById s postId = some P) :
    (∀ pre N suf, P.comments = pre ++ N :: suf → (∀ x ∈ pre, x._id ≠ N._id) →
      ∃ spre ssuf, s.posts = spre ++ P :: ssuf ∧
        putComment env N.userId (.oid postId) (.oid N._id) text s =
          (⟨200, .comment { N with text := text, updatedAt := env.now }⟩,
            { s with posts := spre ++ { P with
                comments := pre ++ { N with text := text, updatedAt := env.now } :: suf }
              :: ssuf })) ∧
    (∀ pre C suf rpre R rsuf, P.comments = pre ++ C :: suf →
      (∀ x ∈ pre, x._id ≠ C._id) → C.replies = rpre ++ R :: rsuf →
      (∀ x ∈ rpre, x._id ≠ R._id) →
      ∃ spre ssuf, s.posts = spre ++ P :: ssuf ∧
        putReply env R.userId (.oid postId) (.oid C._id) (.oid R._id) text s =
          (⟨200, .reply { R with text := text, updatedAt := env.now }⟩,
            { s with posts := spre ++ { P with
                comments := pre ++ { C with
                  replies := rpre ++ { R with text := text, updatedAt := env.now } :: rsuf }
                  :: suf }
              :: ssuf })) := by
  have hPid := findById_id hP
  constructor
  · intro pre N suf hsplit hpre
    have hN : commentById P.comments N._id = some N := by
      rw [hsplit]
      exact commentById_split hpre
    obtain ⟨spre, ssuf, hs, hsave⟩ := save_split hP
      { P with comments := setComment { N with text := text, updatedAt := env.now } P.comments }
      hPid
    refine ⟨spre, ssuf, hs, ?_⟩
    rw [putComment_ok hP hN, hsave, hsplit, setComment_split (q := N)]
    · exact hpre
    · rfl
  · intro pre C suf rpre R rsuf hsplit hpre hrsplit hrpre
    have hC : commentById P.comments C._id = some C := by
      rw [hsplit]
      exact commentById_split hpre
    have hR : replyById C.replies R._id = some R := by
      rw [hrsplit]
      exact replyById_split hrpre
    obtain ⟨spre, ssuf, hs, hsave⟩ := save_split hP
      { P with
        comments := setComment { C with
          replies := setReply { R with text := text, updatedAt := env.now } C.replies }
            P.comments }
      hPid
    refine ⟨spre, ssuf, hs, ?_⟩
    rw [putReply_ok hP hC hR, hsave, hsplit, setComment_split (q := C), hrsplit,
      setReply_split (q := R)]
    · exact hrpre
    · rfl
    · exact hpre
    · rfl

theorem update_comment_reply_frame_witness :
    findById sampleStore 11 = some samplePost ∧
    (∃ spre ssuf, sampleStore.posts = spre ++ samplePost :: ssuf ∧
      putComment sampleEnv 1 (.oid 11) (.oid 22) "edited" sampleStore =
        (⟨200, .comment { otherComment with text := "edited", updatedAt := sampleEnv.now }⟩,
          { sampleStore with posts := spre ++ { samplePost with
              comments := [sampleComment] ++
                { otherComment with text := "edited", updatedAt := sampleEnv.now } :: [] }
            :: ssuf })) ∧
    (∃ spre ssuf, sampleStore.posts = spre ++ samplePost :: ssuf ∧
      putReply sampleEnv 1 (.oid 11) (.oid 21) (.oid 31) "edited" sampleStore =
        (⟨200, .reply { sampleReply with text := "edited", updatedAt := sampleEnv.now }⟩,
          { sampleStore with posts := spre ++ { samplePost with
              comments := [] ++ { sampleComment with
                replies := [] ++
                  { sampleReply with text := "edited", updatedAt := sampleEnv.now } :: [] }
                :: [otherComment] }
            :: ssuf })) :=
  ⟨by decide,
    (update_comment_reply_frame sampleEnv 11 "edited" sampleStore samplePost (by decide)).1
      [sampleComment] otherComment [] (by decide) (by decide),
    (update_comment_reply_frame sampleEnv 11 "edited" sampleStore samplePost (by decide)).2
      [] sampleComment [otherComment] [] sampleReply [] (by decide) (by decide) (by decide)
      (by decide)⟩

/-! ## Adding a comment or a reply -/

/-- C8: add-comment on an existing post answers 201 with a new comment authored
by the actor, with the given text and no likes or replies, and stores the post
with its comment list followed by exactly that comment.  Add-reply on an
existing comment `C` of the post (the first of its id) answers 201 with a new
reply authored by the actor, with the given text and no likes, and stores `C`
with its reply list followed by exactly that reply, the other comments of the
post as they were.  Everything else in the store is unchanged. -/
theorem add_comment_reply_appends (env : Env) (actor postId : ObjectId) (text : String)
    (s : Store) (P : CommunityPost) (hP : findById s postId = some P) :
    (∃ newComment : Comment,
      newComment.userId = actor ∧ newComment.text = text ∧ newComment.likes = [] ∧
      newComment.replies = [] ∧
      ∃ spre ssuf, s.posts = spre ++ P :: ssuf ∧
        postComment env actor (.oid postId) text s =
          (⟨201, .comment newComment⟩,
            { s with posts := spre ++ { P with comments := P.comments ++ [newComment] }
              :: ssuf })) ∧
    (∀ pre C suf, P.comments = pre ++ C :: suf → (∀ x ∈ pre, x._id ≠ C._id) →
      ∃ newReply : Reply,
        newReply.userId = actor ∧ newReply.text = text ∧ newReply.likes = [] ∧
        ∃ spre ssuf, s.posts = spre ++ P :: ssuf ∧
          postReply env actor (.oid postId) (.oid C._id) text s =
            (⟨201, .reply newReply⟩,
              { s with posts := spre ++ { P with
                  comments := pre ++ { C with replies := C.replies ++ [newReply] } :: suf }
                :: ssuf })) := by
  have hPid := findById_id hP
  constructor
  · obtain ⟨spre, ssuf, hs, hsave⟩ := save_split hP
      { P with comments := P.comments ++ [castComment env actor text] } hPid
    refine ⟨castComment env actor text, rfl, rfl, rfl, rfl, spre, ssuf, hs, ?_⟩
    rw [postComment_ok hP, hsave]
  · intro pre C suf hsplit hpre
    have hC : commentById P.comments C._id = some C := by
      rw [hsplit]
      exact commentById_split hpre
    obtain ⟨spre, ssuf, hs, hsave⟩ := save_split hP
      { P with
        comments := setComment { C with replies := C.replies ++ [castReply env actor text] }
          P.comments }
      hPid
    refine ⟨castReply env actor text, rfl, rfl, rfl, spre, ssuf, hs, ?_⟩
    rw [postReply_ok hP hC, hsave, hsplit, setComment_split (q := C)]
    · exact hpre
    · rfl

theorem add_comment_reply_appends_witness :
    findById sampleStore 11 = some samplePost ∧
    (∃ newComment : Comment,
      newComment.userId = 2 ∧ newComment.text = "nice!" ∧ newComment.likes = [] ∧
      newComment.replies = [] ∧
      ∃ spre ssuf, sampleStore.posts = spre ++ samplePost :: ssuf ∧
        postComment sampleEnv 2 (.oid 11) "nice!" sampleStore =
          (⟨201, .comment newComment⟩,
            { sampleStore with
              posts := spre ++ { samplePost with
                comments := samplePost.comments ++ [newComment] } :: ssuf })) ∧
    (∃ newReply : Reply,
      newReply.userId = 2 ∧ newReply.text = "nice!" ∧ newReply.likes = [] ∧
      ∃ spre ssuf, sampleStore.posts = spre ++ samplePost :: ssuf ∧
        postReply sampleEnv 2 (.oid 11) (.oid 22) "nice!" sampleStore =
          (⟨201, .reply newReply⟩,
            { sampleStore with
              posts := spre ++ { samplePost with
                comments := [sampleComment] ++
                  { otherComment with replies := otherComment.replies ++ [newReply] } :: [] }
                :: ssuf })) :=
  ⟨by decide,
    (add_comment_reply_appends sampleEnv 2 11 "nice!" sampleStore samplePost (by decide)).1,
    (add_comment_reply_appends sampleEnv 2 11 "nice!" sampleStore samplePost (by decide)).2
      [sampleComment] otherComment [] (by decide) (by decide)⟩

/-! ## Lemmas: sorting, slicing and the page count -/

theorem sortDocs_perm {K : Type} [LinearOrder K] (key : String → CommunityPost → K)
    (sortBy : String) (order : Int) (docs : List CommunityPost) :
    (sortDocs key sortBy order docs).Perm docs := by
  unfold sortDocs
  split
  · exact List.perm_insertionSort _ docs
  · exact List.perm_insertionSort _ docs

theorem sortDocs_sorted {K : Type} [LinearOrder K] (key : String → CommunityPost → K)
    (sortBy : String) (order : Int) (docs : List CommunityPost) :
    (order = 1 →
      (sortDocs key sortBy order docs).Sorted (fun a b => key sortBy a ≤ key sortBy b)) ∧
    (order ≠ 1 →
      (sortDocs key sortBy order docs).Sorted (fun a b => key sortBy b ≤ key sortBy a)) := by
  constructor
  · intro h
    haveI : IsTotal CommunityPost (fun a b => key sortBy a ≤ key sortBy b) :=
      ⟨fun a b => le_total _ _⟩
    haveI : IsTrans CommunityPost (fun a b => key sortBy a ≤ key sortBy b) :=
      ⟨fun _ _ _ hab hbc => le_trans hab hbc⟩
    simp only [sortDocs, if_pos h]
    exact List.sorted_insertionSort _ docs
  · intro h
    haveI : IsTotal CommunityPost (fun a b => key sortBy b ≤ key sortBy a) :=
      ⟨fun a b => le_total _ _⟩
    haveI : IsTrans CommunityPost (fun a b => key sortBy b ≤ key sortBy a) :=
      ⟨fun _ _ _ hab hbc => le_trans hbc hab⟩
    simp only [sortDocs, if_neg h]
    exact List.sorted_insertionSort _ docs

theorem sortDocs_isStoreSort {K : Type} [LinearOrder K]
    (key : String → CommunityPost → K) : IsStoreSort key (sortDocs key) :=
  fun sortBy order docs =>
    ⟨sortDocs_perm key sortBy order docs, sortDocs_sorted key sortBy order docs⟩

theorem sortDocsRev_isStoreSort {K : Type} [LinearOrder K]
    (key : String → CommunityPost → K) : IsStoreSort key (sortDocsRev key) :=
  fun sortBy order docs =>
    ⟨(sortDocs_perm key sortBy order docs.reverse).trans (List.reverse_perm docs),
      sortDocs_sorted key sortBy order docs.reverse⟩

theorem map_injOn_eq {α β : Type} (f : α → β) :
    ∀ (l1 l2 : List α), (∀ x ∈ l1, ∀ y ∈ l2, f x = f y → x = y) →
      l1.map f = l2.map f → l1 = l2
  | [], [], _, _ => rfl
  | [], _ :: _, _, h => by simp at h
  | _ :: _, [], _, h => by simp at h
  | a :: l1, b :: l2, hinj, h => by
    simp only [List.map_cons, List.cons.injEq] at h
    have hab : a = b := hinj a (by simp) b (by simp) h.1
    have htl := map_injOn_eq f l1 l2
      (fun x hx y hy => hinj x (List.mem_cons_of_mem _ hx) y (List.mem_cons_of_mem _ hy)) h.2
    rw [hab, htl]

theorem storeSort_unique {K : Type} [LinearOrder K] (key : String → CommunityPost → K)
    {sort1 sort2 : String → Int → List CommunityPost → List CommunityPost}
    (h1 : IsStoreSort key sort1) (h2 : IsStoreSort key sort2) (sortBy : String)
    (order : Int) (docs : List CommunityPost)
    (hk : (docs.map (key sortBy)).Nodup) :
    sort1 sortBy order docs = sort2 sortBy order docs := by
  obtain ⟨p1, a1, d1⟩ := h1 sortBy order docs
  obtain ⟨p2, a2, d2⟩ := h2 sortBy order docs
  have hinjdocs : ∀ x ∈ docs, ∀ y ∈ docs, key sortBy x = key sortBy y → x = y :=
    List.inj_on_of_nodup_map hk
  have hinj : ∀ x ∈ sort1 sortBy order docs, ∀ y ∈ sort2 sortBy order docs,
      key sortBy x = key sortBy y → x = y :=
    fun x hx y hy => hinjdocs x (p1.subset hx) y (p2.subset hy)
  have hperm : ((sort1 sortBy order docs).map (key sortBy)).Perm
      ((sort2 sortBy order docs).map (key sortBy)) :=
    (p1.trans p2.symm).map _
  apply map_injOn_eq (key sortBy) _ _ hinj
  by_cases ho : order = 1
  · have s1 : ((sort1 sortBy order docs).map (key sortBy)).Sorted (· ≤ ·) :=
      List.pairwise_map.2 (a1 ho)
    have s2 : ((sort2 sortBy order docs).map (key sortBy)).Sorted (· ≤ ·) :=
      List.pairwise_map.2 (a2 ho)
    exact List.eq_of_perm_of_sorted hperm s1 s2
  · have s1 : ((sort1 sortBy order docs).map (key sortBy)).Sorted (· ≥ ·) :=
      List.pairwise_map.2 (d1 ho)
    have s2 : ((sort2 sortBy order docs).map (key sortBy)).Sorted (· ≥ ·) :=
      List.pairwise_map.2 (d2 ho)
    exact List.eq_of_perm_of_sorted hperm s1 s2

theorem slices_disjoint {α : Type} {L : List α} (hnd : L.Nodup) {i j n m : Nat}
    (h : i + n ≤ j) : List.Disjoint ((L.drop i).take n) ((L.drop j).take m) := by
  have h1 : ∀ x ∈ (L.drop i).take n, x ∈ L.take (i + n) := by
    intro x hx
    rw [List.take_drop] at hx
    exact List.mem_of_mem_drop hx
  have h2 : ∀ x ∈ (L.drop j).take m, x ∈ L.drop j := fun x hx => List.mem_of_mem_take hx
  have hd := List.disjoint_take_drop hnd h
  intro x hx hy
  exact hd (h1 x hx) (h2 x hy)

theorem page_ids_disjoint {L : List CommunityPost}
    (hnd : (L.map (fun p => p._id)).Nodup) {i j n m : Nat} (h : i + n ≤ j) :
    ∀ x ∈ (L.drop i).take n, ∀ y ∈ (L.drop j).take m, x._id ≠ y._id := by
  intro x hx y hy he
  have hx' : x._id ∈ ((L.map (fun p => p._id)).drop i).take n := by
    rw [← List.map_drop, ← List.map_take]
    exact List.mem_map_of_mem _ hx
  have hy' : y._id ∈ ((L.map (fun p => p._id)).drop j).take m := by
    rw [← List.map_drop, ← List.map_take]
    exact List.mem_map_of_mem _ hy
  rw [he] at hx'
  exact slices_disjoint hnd h hx' hy'

theorem ceil_div_le_iff (total : Nat) (limit : Int) (h : 1 ≤ limit) (n : Int) :
    ⌈(total : ℚ) / (limit : ℚ)⌉ ≤ n ↔ (total : Int) ≤ n * limit := by
  have hpos : (0 : ℚ) < (limit : ℚ) := by exact_mod_cast (by omega : (0 : Int) < limit)
  rw [Int.ceil_le, div_le_iff₀ hpos]
  constructor
  · intro hq
    exact_mod_cast hq
  · intro hz
    exact_mod_cast hz

theorem totalPagesOf_fin (total : Nat) (limit : Int) (h : 1 ≤ limit) :
    totalPagesOf total (.fin limit) = .fin ⌈(total : ℚ) / (limit : ℚ)⌉ := by
  have h0 : ¬ limit = 0 := by omega
  simp only [totalPagesOf, if_neg h0]

theorem ofInt_of_lt (v : Int) (h : v.natAbs < 2 ^ 53) : JsNumber.ofInt v = .fin v := by
  have hv : (if v < 0 then -(v.natAbs : Int) else (v.natAbs : Int)) = v := by
    split <;> omega
  simp only [JsNumber.ofInt, roundDouble, if_pos h, hv]

theorem skip_of_page_limit (page limit : Int) (h1 : 1 ≤ page) (h2 : 1 ≤ limit)
    (hrange : page * limit ≤ 2 ^ 53) :
    ((JsNumber.fin page).sub (.fin 1)).mul (.fin limit) = .fin ((page - 1) * limit) ∧
    0 ≤ (page - 1) * limit := by
  have hpl : page ≤ page * limit := le_mul_of_one_le_right (by omega) h2
  have hexp : (page - 1) * limit = page * limit - limit := by ring
  have hnn : 0 ≤ (page - 1) * limit := Int.mul_nonneg (by omega) (by omega)
  have e1 : JsNumber.ofInt (page - 1) = .fin (page - 1) := by
    apply ofInt_of_lt
    have : (2 : Int) ^ 53 = 9007199254740992 := by norm_num
    omega
  have e2 : JsNumber.ofInt ((page - 1) * limit) = .fin ((page - 1) * limit) := by
    apply ofInt_of_lt
    have : (2 : Int) ^ 53 = 9007199254740992 := by norm_num
    omega
  exact ⟨by simp only [JsNumber.sub, JsNumber.mul, e1, e2], hnn⟩

theorem skipLimit_of_nonneg (skip limit : Int) (docs : List CommunityPost)
    (hs : 0 ≤ skip) (hl : 1 ≤ limit) :
    skipLimit (.fin skip) (.fin limit) docs =
      some ((docs.drop skip.toNat).take limit.toNat) := by
  have h1 : ¬ skip < 0 := by omega
  have h2 : ¬ limit = 0 := by omega
  have h3 : limit.natAbs = limit.toNat := by omega
  simp [skipLimit, h1, h2, h3]

/-! ## Listing posts -/

/-- C9: with two stored posts equal in the sort field (`createdAt`), limit 1, and
a store that orders the two one way for the request of page 1 and the other
way for the request of page 2, both pages return the same post.  And for
page 9007199254740994 (2^53 + 2) with limit 1 the skip is 9007199254740992,
not `(page-1)*limit`, which is no double. -/
theorem list_pages_overlap_counterexample :
    IsStoreSort sampleKey (sortDocs sampleKey) ∧
    IsStoreSort sampleKey (sortDocsRev sampleKey) ∧
    (∃ totalPages, getPosts (sortDocs sampleKey) ⟨some "1", some "1", none, none⟩ tiedStore =
      ⟨200, .page [tiedPostA] (.fin 1) totalPages 2⟩) ∧
    (∃ totalPages, getPosts (sortDocsRev sampleKey) ⟨some "2", some "1", none, none⟩ tiedStore =
      ⟨200, .page [tiedPostA] (.fin 2) totalPages 2⟩) ∧
    pageOf ⟨some "9007199254740994", some "1", none, none⟩ = .fin 9007199254740994 ∧
    limitOf ⟨some "9007199254740994", some "1", none, none⟩ = .fin 1 ∧
    skipOf ⟨some "9007199254740994", some "1", none, none⟩ = .fin 9007199254740992 :=
  ⟨sortDocs_isStoreSort sampleKey, sortDocsRev_isStoreSort sampleKey, ⟨_, rfl⟩, ⟨_, rfl⟩,
    by decide, by decide, by decide⟩

/-- C9 (amended): for a request whose page and limit are integers `page ≥ 1` and
`limit ≥ 1` with `page * limit` at most 2^53, on fewer than 2^53 stored
posts, the list handler answers 200 with the posts at positions
`(page-1)*limit` up to, not including, `page*limit` of the stored posts as
the store sorted them for this request by the sort field (the requested
field, `createdAt` when none is given; ascending for order `asc`, else
descending), so with at most `limit` posts; `totalPosts` is the number of
stored posts and `totalPages` is `ceil(totalPosts/limit)`, the least number
of pages of `limit` posts that hold them all.  When the stored posts have
pairwise distinct values of the sort field and distinct ids, no post of this
page is on a different page `page2 ≥ 1` requested with the same limit and
sort, however the store sorts for that request. -/
theorem list_posts_page {K : Type} [LinearOrder K] (key : String → CommunityPost → K)
    (storeSort : String → Int → List CommunityPost → List CommunityPost)
    (q : ListQuery) (s : Store) (page limit : Int)
    (hsort : IsStoreSort key storeSort)
    (hpage : pageOf q = .fin page) (hlimit : limitOf q = .fin limit)
    (h1 : 1 ≤ page) (h2 : 1 ≤ limit) (hrange : page * limit ≤ 2 ^ 53)
    (_htotal : s.posts.length < 2 ^ 53) :
    ((q.sortBy = none ∨ q.sortBy = some "") → sortByOf q = "createdAt") ∧
    (∀ f, q.sortBy = some f → f ≠ "" → sortByOf q = f) ∧
    (q.order = some "asc" → orderOf q = 1) ∧
    (q.order ≠ some "asc" → orderOf q = -1) ∧
    ∃ posts : List CommunityPost,
      getPosts storeSort q s =
        ⟨200, .page posts (.fin page) (.fin ⌈(s.posts.length : ℚ) / (limit : ℚ)⌉)
          s.posts.length⟩ ∧
      posts = ((storeSort (sortByOf q) (orderOf q) s.posts).drop
        ((page - 1) * limit).toNat).take limit.toNat ∧
      (∀ i : Nat, i < limit.toNat →
        posts[i]? =
          (storeSort (sortByOf q) (orderOf q) s.posts)[((page - 1) * limit).toNat + i]?) ∧
      posts.length ≤ limit.toNat ∧
      (storeSort (sortByOf q) (orderOf q) s.posts).Perm s.posts ∧
      (orderOf q = 1 → (storeSort (sortByOf q) (orderOf q) s.posts).Sorted
        (fun a b => key (sortByOf q) a ≤ key (sortByOf q) b)) ∧
      (orderOf q ≠ 1 → (storeSort (sortByOf q) (orderOf q) s.posts).Sorted
        (fun a b => key (sortByOf q) b ≤ key (sortByOf q) a)) ∧
      (∀ n : Int, ⌈(s.posts.length : ℚ) / (limit : ℚ)⌉ ≤ n ↔
        (s.posts.length : Int) ≤ n * limit) ∧
      (∀ (storeSort2 : String → Int → List CommunityPost → List CommunityPost)
        (q2 : ListQuery) (page2 : Int),
        IsStoreSort key storeSort2 → pageOf q2 = .fin page2 → limitOf q2 = .fin limit →
        sortByOf q2 = sortByOf q → orderOf q2 = orderOf q →
        1 ≤ page2 → page2 * limit ≤ 2 ^ 53 → page2 ≠ page →
        (s.posts.map (key (sortByOf q))).Nodup → (s.posts.map (fun p => p._id)).Nodup →
        ∀ (posts2 : List CommunityPost) (currentPage totalPages : JsNumber)
          (totalPosts : Nat),
          getPosts storeSort2 q2 s = ⟨200, .page posts2 currentPage totalPages totalPosts⟩ →
          ∀ x ∈ posts, ∀ y ∈ posts2, x._id ≠ y._id) := by
  have hget : ∀ (st : String → Int → List CommunityPost → List CommunityPost)
      (q' : ListQuery) (p : Int), pageOf q' = .fin p → limitOf q' = .fin limit → 1 ≤ p →
      p * limit ≤ 2 ^ 53 →
      getPosts st q' s =
        ⟨200, .page (((st (sortByOf q') (orderOf q') s.posts).drop
          ((p - 1) * limit).toNat).take limit.toNat) (.fin p)
          (.fin ⌈(s.posts.length : ℚ) / (limit : ℚ)⌉) s.posts.length⟩ := by
    intro st q' p hp hl hp1 hpr
    obtain ⟨hskip, hnn⟩ := skip_of_page_limit p limit hp1 h2 hpr
    simp only [getPosts, skipOf, hp, hl, hskip, skipLimit_of_nonneg _ _ _ hnn h2,
      countDocuments, totalPagesOf_fin _ _ h2]
  refine ⟨?_, ?_, ?_, ?_, _, hget storeSort q page hpage hlimit h1 hrange, rfl, ?_, ?_,
    (hsort _ _ _).1, (hsort _ _ _).2.1, (hsort _ _ _).2.2, ceil_div_le_iff _ _ h2, ?_⟩
  · intro h
    rcases h with h | h <;> simp [sortByOf, stringOr, h]
  · intro f hf hne
    simp [sortByOf, stringOr, hf, hne]
  · intro h
    simp [orderOf, h]
  · intro h
    simp [orderOf, h]
  · intro i hi
    rw [List.getElem?_take_of_lt hi, List.getElem?_drop]
  · exact List.length_take_le _ _
  · intro storeSort2 q2 page2 hsort2 hpage2 hlimit2 hsb hord hp2 hrange2 hne hkeys hids
      posts2 currentPage totalPages totalPosts hresp x hx y hy
    rw [hget storeSort2 q2 page2 hpage2 hlimit2 hp2 hrange2] at hresp
    have hposts2 : posts2 = ((storeSort2 (sortByOf q2) (orderOf q2) s.posts).drop
        ((page2 - 1) * limit).toNat).take limit.toNat := by
      simp only [Response.mk.injEq, Body.page.injEq, true_and] at hresp
      exact hresp.1.symm
    rw [hposts2, hsb, hord,
      ← storeSort_unique key hsort hsort2 (sortByOf q) (orderOf q) s.posts hkeys] at hy
    have hndL : ((storeSort (sortByOf q) (orderOf q) s.posts).map (fun p => p._id)).Nodup :=
      (((hsort (sortByOf q) (orderOf q) s.posts).1).map _).nodup_iff.2 hids
    have hs1 := (skip_of_page_limit page limit h1 h2 hrange).2
    have hs2 := (skip_of_page_limit page2 limit hp2 h2 hrange2).2
    rcases lt_or_gt_of_ne hne with hlt | hgt
    · have hle : (page2 - 1) * limit + limit ≤ (page - 1) * limit := by
        have : page2 * limit ≤ (page - 1) * limit :=
          Int.mul_le_mul_of_nonneg_right (by omega) (by omega)
        linarith
      have hnat : ((page2 - 1) * limit).toNat + limit.toNat ≤ ((page - 1) * limit).toNat := by
        omega
      exact fun he => page_ids_disjoint hndL hnat y hy x hx he.symm
    · have hle : (page - 1) * limit + limit ≤ (page2 - 1) * limit := by
        have : page * limit ≤ (page2 - 1) * limit :=
          Int.mul_le_mul_of_nonneg_right (by omega) (by omega)
        linarith
      have hnat : ((page - 1) * limit).toNat + limit.toNat ≤ ((page2 - 1) * limit).toNat := by
        omega
      exact page_ids_disjoint hndL hnat x hx y hy

theorem list_posts_page_witness :
    IsStoreSort sampleKey (sortDocs sampleKey) ∧
    pageOf ⟨some "2", some "1", none, none⟩ = .fin 2 ∧
    limitOf ⟨some "2", some "1", none, none⟩ = .fin 1 ∧
    (1 : Int) ≤ 2 ∧ (1 : Int) ≤ 1 ∧ (2 : Int) * 1 ≤ 2 ^ 53 ∧
    sampleStore.posts.length < 2 ^ 53 ∧
    ∃ (posts : List CommunityPost) (totalPages : JsNumber),
      getPosts (sortDocs sampleKey) ⟨some "2", some "1", none, none⟩ sampleStore =
        ⟨200, .page posts (.fin 2) totalPages 2⟩ ∧
      posts = ((sortDocs sampleKey "createdAt" (-1) sampleStore.posts).drop 1).take 1 ∧
      posts.length ≤ 1 ∧
      (∀ (posts1 : List CommunityPost) (currentPage totalPages1 : JsNumber)
        (totalPosts : Nat),
        getPosts (sortDocsRev sampleKey) ⟨some "1", some "1", none, none⟩ sampleStore =
          ⟨200, .page posts1 currentPage totalPages1 totalPosts⟩ →
        ∀ x ∈ posts, ∀ y ∈ posts1, x._id ≠ y._id) :=
  ⟨sortDocs_isStoreSort sampleKey, by decide, by decide, by decide, by decide, by norm_num,
    by decide,
    match (list_posts_page sampleKey (sortDocs sampleKey) ⟨some "2", some "1", none, none⟩
      sampleStore 2 1 (sortDocs_isStoreSort sampleKey) (by decide) (by decide) (by decide)
      (by decide) (by norm_num) (by decide)).2.2.2.2 with
    | ⟨posts, h1, h2, _, h4, _, _, _, _, h9⟩ =>
      ⟨posts, _, h1, h2, h4,
        h9 (sortDocsRev sampleKey) ⟨some "1", some "1", none, none⟩ 1
          (sortDocsRev_isStoreSort sampleKey) (by decide) (by decide) rfl rfl (by decide)
          (by norm_num) (by decide) (by decide) (by decide)⟩⟩

/-! ## Reading the page and the limit -/

theorem parseInt_rounds_to_double :
    parseInt "9007199254740993" = .fin 9007199254740992 := by
  decide

/-- C10: for the request `GET /?page=-5` the handler computes page -5 (not 1) and
skip -60, and answers 500 whatever the store holds, where the claim has page
1, a skip that is not negative and no failure; `page=12abc&limit=-3` gives
page 12 and limit -3.  The same line does fall back to page 1 and limit 10 on
a missing value, on non-numeric text and on zero. -/
theorem list_negative_page_fails :
    pageOf ⟨some "-5", none, none, none⟩ = .fin (-5) ∧
    limitOf ⟨some "-5", none, none, none⟩ = .fin 10 ∧
    skipOf ⟨some "-5", none, none, none⟩ = .fin (-60) ∧
    (∀ (storeSort : String → Int → List CommunityPost → List CommunityPost) (s : Store),
      getPosts storeSort ⟨some "-5", none, none, none⟩ s =
        ⟨500, .error "Internal server error"⟩) ∧
    pageOf ⟨some "12abc", some "-3", none, none⟩ = .fin 12 ∧
    limitOf ⟨some "12abc", some "-3", none, none⟩ = .fin (-3) ∧
    pageOf ⟨none, none, none, none⟩ = .fin 1 ∧
    limitOf ⟨none, none, none, none⟩ = .fin 10 ∧
    pageOf ⟨some "abc", some "0", none, none⟩ = .fin 1 ∧
    limitOf ⟨some "abc", some "0", none, none⟩ = .fin 10 := by
  have hskip : skipOf ⟨some "-5", none, none, none⟩ = .fin (-60) := by decide
  have hlimit : limitOf ⟨some "-5", none, none, none⟩ = .fin 10 := by decide
  refine ⟨by decide, hlimit, hskip, ?_, by decide, by decide, by decide, by decide,
    by decide, by decide⟩
  intro storeSort s
  simp only [getPosts, hskip, hlimit, skipLimit]
  rfl

end Bagpacks
